import Mathlib

/-!
OpenChange mapistore: identifier management

A shallow embedding of `mapiproxy/libmapistore/mapistore_processing.c`:

* the in-memory context-ID allocator (`mapistore_get_context_id`,
  `mapistore_free_context_id`), a counter plus a free list of recycled ids;
* the process-wide mapping path and ID mapping context
  (`mapistore_set_mapping_path`, `mapistore_get_mapping_path`,
  `mapistore_init_mapping_context`);

of the named-property store of `mapiproxy/libmapistore/mapistore_namedprops.c`
(`mapistore_namedprops_get_default_id`, `mapistore_namedprops_check_id`,
`mapistore_namedprops_get_mapped_id`), and of the folder-id filters and the
receive-folder lookup of `mapiproxy/libmapiproxy/openchangedb.c`.

Conventions.  `uint32_t` and `uint64_t` values are natural numbers, reduced
modulo `2^32` / `2^64` where the C code does arithmetic on them.  A C pointer
argument that may be `NULL` is an `Option`.  Linked lists are Lean lists, head
first.  Everything outside the process (the file system, the allocator) is
read from an explicit environment record.  Memory allocation by `talloc_zero`
and `talloc_strdup`, whose result the C code does not check, is taken to
succeed.
-/

namespace Mapistore

/-! ## Return codes -/

/-- Return codes of `mapistore_errors.h` used by `mapistore_processing.c` and
`mapistore_namedprops.c`. -/
inductive MapistoreError
  | MAPISTORE_SUCCESS
  | MAPISTORE_ERR_NOT_INITIALIZED
  | MAPISTORE_ERR_ALREADY_INITIALIZED
  | MAPISTORE_ERR_NO_MEMORY
  | MAPISTORE_ERR_NO_DIRECTORY
  | MAPISTORE_ERR_DATABASE_INIT
  | MAPISTORE_ERR_DATABASE_OPS
  | MAPISTORE_ERR_CORRUPTED
  | MAPISTORE_ERROR
  | MAPISTORE_ERR_INVALID_PARAMETER
  | MAPISTORE_ERR_NOT_FOUND
  | MAPISTORE_ERR_EXIST
  deriving DecidableEq, Repr

open MapistoreError

/-- Number of values of a `uint32_t`. -/
def UINT32_MOD : Nat := 2 ^ 32

/-! ## Context-ID allocator -/

/-- The `struct processing_context`: `mapping_ctx` is the pointer to the ID
mapping context (`none` is `NULL`, `some a` the address `a`), `free_ctx` the
list of `struct context_id_list` nodes (each node is its `context_id`, the
head of the list first), `last_context_id` the last id issued by the counter. -/
structure processing_context where
  mapping_ctx : Option Nat
  free_ctx : List Nat
  last_context_id : Nat
  deriving DecidableEq, Repr

/-- The loop `for (el = pctx->free_ctx; el; el = el->next)` of
`mapistore_get_context_id`: walks the list from its head, and at the first
node whose `context_id` is non-zero yields that id together with the list
after `DLIST_REMOVE` of that node.  `none` when the loop runs off the end of
the list without finding such a node. -/
def get_context_id_loop : List Nat → Option (Nat × List Nat)
  | [] => none
  | el :: next =>
    if el ≠ 0 then some (el, next)
    else
      match get_context_id_loop next with
      | none => none
      | some (id, rest) => some (id, el :: rest)

/-- The function `mapistore_get_context_id (pctx, context_id)`.  The second
argument is the content of the caller's slot `*context_id` before the call;
the result is the return code, the processing context after the call and the
content of `*context_id` after the call. -/
def mapistore_get_context_id (pctx : Option processing_context) (context_id : Nat) :
    MapistoreError × Option processing_context × Nat :=
  match pctx with
  | none => (MAPISTORE_ERR_NOT_INITIALIZED, none, context_id)
  | some p =>
    -- Step 1. The free context list doesn't exist yet
    let p1 : processing_context :=
      if p.free_ctx = [] then
        { p with last_context_id := (p.last_context_id + 1) % UINT32_MOD }
      else p
    let out1 : Nat := if p.free_ctx = [] then p1.last_context_id else context_id
    -- Step 2. We have a free list
    match get_context_id_loop p1.free_ctx with
    | some (id, rest) => (MAPISTORE_SUCCESS, some { p1 with free_ctx := rest }, id)
    | none => (MAPISTORE_SUCCESS, some p1, out1)

/-- The function `mapistore_free_context_id (pctx, context_id)`: return code
and processing context after the call.  The first loop looks for a node
carrying `context_id`; `DLIST_ADD_END` appends the new node at the end. -/
def mapistore_free_context_id (pctx : Option processing_context) (context_id : Nat) :
    MapistoreError × Option processing_context :=
  match pctx with
  | none => (MAPISTORE_ERR_NOT_INITIALIZED, none)
  | some p =>
    if p.free_ctx.any (fun el => el == context_id) then
      (MAPISTORE_ERR_CORRUPTED, some p)
    else
      (MAPISTORE_SUCCESS, some { p with free_ctx := p.free_ctx ++ [context_id] })

/-- A processing context whose allocator is in its initial state: counter 0
and empty free list. -/
def initial_context (mapping_ctx : Option Nat) : processing_context :=
  { mapping_ctx := mapping_ctx, free_ctx := [], last_context_id := 0 }

/-- The allocator states reachable from the initial state through calls of
`mapistore_get_context_id` (with any content of the caller's slot) and
`mapistore_free_context_id` (with any `uint32_t` argument). -/
inductive Reachable : processing_context → Prop
  | init (m : Option Nat) : Reachable (initial_context m)
  | acquire (p p' : processing_context) (slot : Nat) (hp : Reachable p)
      (h : (mapistore_get_context_id (some p) slot).2.1 = some p') : Reachable p'
  | release (p p' : processing_context) (x : Nat) (hx : x < UINT32_MOD) (hp : Reachable p)
      (h : (mapistore_free_context_id (some p) x).2 = some p') : Reachable p'

/-- The ids delivered by `n` consecutive calls of `mapistore_get_context_id`
on the context `p`, in call order, and the context after the last call.  The
caller's slot holds `slot` before every call. -/
def acquire_n (slot : Nat) : Nat → processing_context → List Nat × processing_context
  | 0, p => ([], p)
  | n + 1, p =>
    match mapistore_get_context_id (some p) slot with
    | (_, some p', id) =>
      let r := acquire_n slot n p'
      (id :: r.1, r.2)
    | (_, none, _) => ([], p)

/-- A call on the context-ID allocator: `mapistore_get_context_id` with the
content of the caller's slot, or `mapistore_free_context_id` with its
argument. -/
inductive AllocatorCall
  | acquire (slot : Nat)
  | release (context_id : Nat)
  deriving DecidableEq, Repr

/-- The allocator state after a sequence of calls, made in order on the
context `p`. -/
def run_calls : List AllocatorCall → processing_context → processing_context
  | [], p => p
  | AllocatorCall.acquire slot :: calls, p =>
    match (mapistore_get_context_id (some p) slot).2.1 with
    | some p' => run_calls calls p'
    | none => p
  | AllocatorCall.release context_id :: calls, p =>
    match (mapistore_free_context_id (some p) context_id).2 with
    | some p' => run_calls calls p'
    | none => p

/-! ## Mapping path and ID mapping context -/

/-- Constants of `mapistore.h` / `mapistore_private.h` that
`mapistore_processing.c` uses: the compiled-in default mapping directory, the
file names of the two ledgers, the key of the last-id record and its starting
value. -/
structure Config where
  MAPISTORE_MAPPING_PATH : String
  MAPISTORE_DB_NAME_USED_ID : String
  MAPISTORE_DB_NAME_FREE_ID : String
  MAPISTORE_DB_LAST_ID_KEY : String
  MAPISTORE_DB_LAST_ID_VAL : Nat

/-- What a call reads from outside the process: whether `opendir (path)`
returns a directory stream, the result of `talloc_named (NULL, 0,
"mapping_context")` (`none` is `NULL`), whether `tdb_open (path, O_RDWR |
O_CREAT)` can open or create the file, and whether the I/O of `tdb_fetch` and
of `tdb_store` goes through.  The object `talloc_named (NULL, 0, ...)` returns
has 0 bytes and nothing initialises it, so what the members `used_ctx` and
`free_ctx` hold when the code first tests them is not determined by the
program: `fresh_used_ctx_null` and `fresh_free_ctx_null` tell whether the
memory there reads as `NULL`. -/
structure Env where
  opendir : String → Bool
  talloc_named : Option Nat
  tdb_open_ok : String → Bool
  tdb_fetch_ok : Bool
  tdb_store_ok : Bool
  fresh_used_ctx_null : Bool
  fresh_free_ctx_null : Bool

/-- A `char *` into talloc memory: `NULL`, a pointer to a live string, or a
pointer to memory that `talloc_free` has released. -/
inductive CharPtr
  | NULL
  | str (s : String)
  | freed
  deriving DecidableEq, Repr

/-- A tdb file: its records, in insertion order. -/
abbrev Tdb := List (String × String)

/-- A `TDB_CONTEXT *`: `NULL`, the handle `tdb_open` returned for the
database file at `path`, or `wild`, a value that is not `NULL` and that no
`tdb_open` returned (what memory nobody initialised may hold). -/
inductive TdbPtr
  | NULL
  | tdb (path : String)
  | wild
  deriving DecidableEq, Repr

/-- The `struct id_mapping_context`. -/
structure id_mapping_context where
  used_ctx : TdbPtr
  free_ctx : TdbPtr
  last_id : Nat
  deriving DecidableEq, Repr

/-- The state the functions of `mapistore_processing.c` share: the static
pointer `mapping_ctx` (`none` is `NULL`), the content of the memory it points
to (`none` when the pointer is `NULL` or the memory has been released), the
global `mapping_path`, and the tdb files on disk, by path. -/
structure State where
  mapping_ctx : Option Nat
  mapping_ctx_mem : Option id_mapping_context
  mapping_path : CharPtr
  files : List (String × Tdb)
  deriving DecidableEq, Repr

/-- State of a process that has just started over the disk content `files`. -/
def initial_state (files : List (String × Tdb)) : State :=
  { mapping_ctx := none, mapping_ctx_mem := none, mapping_path := CharPtr.NULL, files := files }

/-- The function `mapistore_set_mapping_path (path)`; `none` as argument is a
`NULL` path.  The result is `none` when the call hands a pointer to released
memory to `talloc_free`, whose behaviour is then undefined. -/
def mapistore_set_mapping_path (env : Env) (g : State) (path : Option String) :
    Option (MapistoreError × State) :=
  -- Sanity checks
  if g.mapping_ctx.isSome then some (MAPISTORE_ERR_ALREADY_INITIALIZED, g)
  else
    match path with
    | none =>
      -- Case 1. Path is set to NULL
      match g.mapping_path with
      | CharPtr.freed => none
      | _ => some (MAPISTORE_SUCCESS, { g with mapping_path := CharPtr.NULL })
    | some p =>
      match g.mapping_path with
      | CharPtr.freed => none
      | mp =>
        -- if (mapping_path) talloc_free (mapping_path);
        let mp1 : CharPtr := if mp = CharPtr.NULL then CharPtr.NULL else CharPtr.freed
        -- Step 1. Check if path is valid path
        if env.opendir p then
          some (MAPISTORE_SUCCESS, { g with mapping_path := CharPtr.str p })
        else
          some (MAPISTORE_ERR_NO_DIRECTORY, { g with mapping_path := mp1 })

/-- The function `mapistore_get_mapping_path ()`: the pointer it returns. -/
def mapistore_get_mapping_path (cfg : Config) (g : State) : CharPtr :=
  if g.mapping_path = CharPtr.NULL then CharPtr.str cfg.MAPISTORE_MAPPING_PATH
  else g.mapping_path

/-- Number of values of a `uint64_t`. -/
def UINT64_MOD : Nat := 2 ^ 64

/-- One lowercase hexadecimal digit. -/
def hex_digit (d : Nat) : Char :=
  if d < 10 then Char.ofNat (48 + d) else Char.ofNat (87 + d)

/-- Digits of `v` in base 16, most significant first, put in front of `acc`;
`fuel` bounds the number of digits. -/
def hex_digits : Nat → Nat → List Char → List Char
  | 0, _, acc => acc
  | fuel + 1, v, acc =>
    if v < 16 then hex_digit v :: acc
    else hex_digits fuel (v / 16) (hex_digit (v % 16) :: acc)

/-- The text `talloc_asprintf (mem_ctx, "0x%" PRIx64, (uint64_t) v)` builds. -/
def asprintf_0x_PRIx64 (v : Nat) : String :=
  String.mk ('0' :: 'x' :: hex_digits 16 (v % UINT64_MOD) [])

/-- The C function `isspace` in the "C" locale. -/
def isspace (c : Char) : Bool :=
  c.toNat = 32 || (9 ≤ c.toNat && c.toNat ≤ 13)

/-- Value of a character as a base 16 digit, if it is one. -/
def hex_value (c : Char) : Option Nat :=
  if 48 ≤ c.toNat ∧ c.toNat ≤ 57 then some (c.toNat - 48)
  else if 97 ≤ c.toNat ∧ c.toNat ≤ 102 then some (c.toNat - 87)
  else if 65 ≤ c.toNat ∧ c.toNat ≤ 70 then some (c.toNat - 55)
  else none

/-- The digit loop of `strtoull`: the number the longest prefix of base 16
digits denotes, continuing from `acc`. -/
def strtoull_digits : List Char → Nat → Nat
  | [], acc => acc
  | c :: cs, acc =>
    match hex_value c with
    | some d => strtoull_digits cs (acc * 16 + d)
    | none => acc

/-- The C library call `strtoull (s, NULL, 16)`: leading white space, an
optional sign, an optional `0x` or `0X`, then the longest run of base 16
digits.  No digits give 0, a value that does not fit 64 bits gives
`ULLONG_MAX`, and a minus sign negates the value modulo `2^64`. -/
def strtoull_16 (s : List Char) : Nat :=
  let s1 := s.dropWhile isspace
  let neg : Bool := match s1 with
    | c :: _ => c = '-'
    | [] => false
  let s2 := match s1 with
    | c :: r => if c = '-' ∨ c = '+' then r else s1
    | [] => s1
  let s3 := match s2 with
    | z :: x :: r => if z = '0' ∧ (x = 'x' ∨ x = 'X') then r else s2
    | _ => s2
  let v := strtoull_digits s3 0
  if UINT64_MOD ≤ v then UINT64_MOD - 1
  else if neg then (UINT64_MOD - v) % UINT64_MOD
  else v

/-- The call `talloc_strndup (mem_ctx, dbuf.dptr, dbuf.dsize)` on a record of
`dbuf.dsize` bytes: the bytes before the first NUL. -/
def talloc_strndup (value : String) : List Char :=
  value.data.takeWhile (fun c => c.toNat ≠ 0)

/-- The call `tdb_open (path, 0, 0, O_RDWR|O_CREAT, 0600)`: the handle
(`none` is `NULL`) and the files on disk after the call; a file that does not
exist yet is created empty. -/
def tdb_open (env : Env) (files : List (String × Tdb)) (path : String) :
    Option String × List (String × Tdb) :=
  if env.tdb_open_ok path then
    match files.lookup path with
    | some _ => (some path, files)
    | none => (some path, files ++ [(path, [])])
  else (none, files)

/-- The call `tdb_fetch (tdb, key)` on the file at `path`: the record, `none`
for a `dbuf` whose `dptr` is `NULL`. -/
def tdb_fetch (env : Env) (files : List (String × Tdb)) (path key : String) : Option String :=
  if env.tdb_fetch_ok then
    match files.lookup path with
    | some db => db.lookup key
    | none => none
  else none

/-- The call `tdb_store (tdb, key, dbuf, TDB_INSERT)` on the file at `path`:
`none` stands for the return value -1 (the key exists already, or the I/O
failed), otherwise the files on disk after the record was added. -/
def tdb_store_insert (env : Env) (files : List (String × Tdb)) (path key value : String) :
    Option (List (String × Tdb)) :=
  if env.tdb_store_ok then
    match files.lookup path with
    | some db =>
      match db.lookup key with
      | some _ => none
      | none =>
        some (files.map (fun f => if f.1 = path then (f.1, f.2 ++ [(key, value)]) else f))
    | none => none
  else none

/-- The state after `talloc_free (mapping_ctx)` on one of the error paths of
`mapistore_init_mapping_context`: the memory is released, the static pointer
keeps its value `a`. -/
def init_failed (g : State) (a : Nat) (files : List (String × Tdb)) : State :=
  { g with mapping_ctx := some a, mapping_ctx_mem := none, files := files }

/-- Steps 1 and 2 of `mapistore_init_mapping_context`, the statement
`if (!mapping_ctx->m) { dbpath = talloc_asprintf (mem_ctx, "%s/%s",
mapistore_get_mapping_path (), name); mapping_ctx->m = tdb_open (dbpath, 0, 0,
O_RDWR|O_CREAT, 0600); ... }` for the member `m`; `is_null` tells whether the
member reads as `NULL` when the statement tests it.  The result is the value
of the member after the statement and the files on disk: the handle of
`tdb_open`, `TdbPtr.NULL` when `tdb_open` failed (the statement then returns
`MAPISTORE_ERR_DATABASE_INIT`), or the `wild` value the member held when the
test skips the body.  The result is `none` when the body reads the mapping
path through a pointer to released memory. -/
def init_open_database (cfg : Config) (env : Env) (g : State) (is_null : Bool) (name : String)
    (files : List (String × Tdb)) : Option (TdbPtr × List (String × Tdb)) :=
  if is_null then
    match mapistore_get_mapping_path cfg g with
    | CharPtr.str dir =>
      match tdb_open env files (dir ++ "/" ++ name) with
      | (some path, files1) => some (TdbPtr.tdb path, files1)
      | (none, files1) => some (TdbPtr.NULL, files1)
    | _ => none
  else some (TdbPtr.wild, files)

/-- Step 3 of `mapistore_init_mapping_context` ("Retrieve the last ID
value"), run with `mapping_ctx->used_ctx` a handle on the database file at
`used_path`: the error the step returns with, or the value of `last_id` after
the step and the files on disk. -/
def init_retrieve_last_id (cfg : Config) (env : Env) (files : List (String × Tdb))
    (used_path : String) : Except MapistoreError (Nat × List (String × Tdb)) :=
  let key := cfg.MAPISTORE_DB_LAST_ID_KEY
  let dbuf := tdb_fetch env files used_path key
  let absent : Bool := match dbuf with
    | none => true
    | some v => v.data.length = 0
  if absent then
    -- If the record doesn't exist, insert it
    let text := asprintf_0x_PRIx64 cfg.MAPISTORE_DB_LAST_ID_VAL
    let last_id := cfg.MAPISTORE_DB_LAST_ID_VAL % UINT64_MOD
    match tdb_store_insert env files used_path key text with
    | none => Except.error MAPISTORE_ERR_DATABASE_OPS
    | some files3 => Except.ok (last_id, files3)
  else
    Except.ok (strtoull_16 (talloc_strndup (dbuf.getD "")), files)

/-- The function `mapistore_init_mapping_context (pctx)`: return code, shared
state and processing context after the call.  The members of the 0-byte
object `talloc_named` returns are memory behind that object: what they hold
before the code writes them comes from the environment, and
`mapping_ctx_mem` records what they hold afterwards.  The result is `none`
when the behaviour of the call is undefined: it reads the mapping path
through a pointer to released memory, or it hands `tdb_fetch` a `used_ctx`
that no `tdb_open` returned. -/
def mapistore_init_mapping_context (cfg : Config) (env : Env) (g : State)
    (pctx : Option processing_context) :
    Option (MapistoreError × State × Option processing_context) :=
  match pctx with
  | none => some (MAPISTORE_ERR_NOT_INITIALIZED, g, none)
  | some p =>
    match g.mapping_ctx with
    | some a =>
      -- Step 0. return existing mapping context if already initialized
      some (MAPISTORE_SUCCESS, g, some { p with mapping_ctx := some a })
    | none =>
      match env.talloc_named with
      | none => some (MAPISTORE_ERR_NO_MEMORY, g, some p)
      | some a =>
        -- Step 1. Open/Create the used ID database
        match init_open_database cfg env g env.fresh_used_ctx_null
            cfg.MAPISTORE_DB_NAME_USED_ID g.files with
        | none => none
        | some (TdbPtr.NULL, files1) =>
          some (MAPISTORE_ERR_DATABASE_INIT, init_failed g a files1, some p)
        | some (used_ctx, files1) =>
          -- Step 2. Open/Create the free ID database
          match init_open_database cfg env g env.fresh_free_ctx_null
              cfg.MAPISTORE_DB_NAME_FREE_ID files1 with
          | none => none
          | some (TdbPtr.NULL, files2) =>
            some (MAPISTORE_ERR_DATABASE_INIT, init_failed g a files2, some p)
          | some (free_ctx, files2) =>
            -- Step 3. Retrieve the last ID value
            match used_ctx with
            | TdbPtr.tdb used_path =>
              match init_retrieve_last_id cfg env files2 used_path with
              | Except.error retval => some (retval, init_failed g a files2, some p)
              | Except.ok (last_id, files3) =>
                some (MAPISTORE_SUCCESS,
                  { g with
                    mapping_ctx := some a
                    mapping_ctx_mem := some
                      { used_ctx := used_ctx, free_ctx := free_ctx, last_id := last_id }
                    files := files3 },
                  some { p with mapping_ctx := some a })
            | _ => none

/-- An environment in which everything outside the process fails: no
directory can be opened, no memory and no database file can be had. -/
def failing_env : Env :=
  { opendir := fun _ => false, talloc_named := none, tdb_open_ok := fun _ => false,
    tdb_fetch_ok := false, tdb_store_ok := false, fresh_used_ctx_null := true,
    fresh_free_ctx_null := true }

/-- An environment in which memory is available at address 1 but no database
file can be opened or created (for instance a mapping directory that is not
writable). -/
def no_database_env : Env :=
  { opendir := fun _ => false, talloc_named := some 1, tdb_open_ok := fun _ => false,
    tdb_fetch_ok := true, tdb_store_ok := true, fresh_used_ctx_null := true,
    fresh_free_ctx_null := true }

/-- An environment whose only directory is `/srv/mapistore`, with memory and
database I/O available. -/
def one_directory_env : Env :=
  { opendir := fun path => path == "/srv/mapistore", talloc_named := some 1,
    tdb_open_ok := fun _ => true, tdb_fetch_ok := true, tdb_store_ok := true,
    fresh_used_ctx_null := true, fresh_free_ctx_null := true }

/-- The shared state after the first successful initialization of a process
that started on an empty disk, with the constants of `sample_config` and
memory at address 1. -/
def initialized_state : State :=
  { mapping_ctx := some 1,
    mapping_ctx_mem := some
      { used_ctx := TdbPtr.tdb "/var/lib/mapistore/used.tdb",
        free_ctx := TdbPtr.tdb "/var/lib/mapistore/free.tdb", last_id := 1 },
    mapping_path := CharPtr.NULL,
    files := [("/var/lib/mapistore/used.tdb", [("last_id", "0x1")]),
              ("/var/lib/mapistore/free.tdb", [])] }

/-- Some values for the constants of the headers. -/
def sample_config : Config :=
  { MAPISTORE_MAPPING_PATH := "/var/lib/mapistore", MAPISTORE_DB_NAME_USED_ID := "used.tdb",
    MAPISTORE_DB_NAME_FREE_ID := "free.tdb", MAPISTORE_DB_LAST_ID_KEY := "last_id",
    MAPISTORE_DB_LAST_ID_VAL := 1 }

/-- The path `talloc_asprintf (mem_ctx, "%s/%s", dir, MAPISTORE_DB_NAME_USED_ID)`
of the used-ID ledger under the mapping directory `dir`. -/
def used_id_path (cfg : Config) (dir : String) : String :=
  dir ++ "/" ++ cfg.MAPISTORE_DB_NAME_USED_ID

/-- The path `talloc_asprintf (mem_ctx, "%s/%s", dir, MAPISTORE_DB_NAME_FREE_ID)`
of the free-ID ledger under the mapping directory `dir`. -/
def free_id_path (cfg : Config) (dir : String) : String :=
  dir ++ "/" ++ cfg.MAPISTORE_DB_NAME_FREE_ID

/-- The digits of the conversion `%.16` PRIx64 (precision 16): the lowercase
digits of `v` in base 16, with zeros in front up to 16 digits. -/
def hex_digits_16 (v : Nat) : List Char :=
  List.replicate (16 - (hex_digits 16 (v % UINT64_MOD) []).length) '0'
    ++ hex_digits 16 (v % UINT64_MOD) []

/-- The filter `talloc_asprintf (mem_ctx, "(PidTagFolderId=0x%llx)", fid)` of
`openchangedb_lookup_folder_property`, step 1. -/
def openchangedb_lookup_folder_property_filter (fid : Nat) : String :=
  "(PidTagFolderId=" ++ String.mk ('0' :: 'x' :: hex_digits 16 (fid % UINT64_MOD) []) ++ ")"

/-- The filter `talloc_asprintf (mem_ctx, "(PidTagFolderId=0x%.16" PRIx64 ")",
fid)` of `openchangedb_get_folder_property`, step 1. -/
def openchangedb_get_folder_property_filter (fid : Nat) : String :=
  "(PidTagFolderId=" ++ String.mk ('0' :: 'x' :: hex_digits_16 fid) ++ ")"

/-- The C predicate "lowercase hexadecimal digit": `0`-`9` or `a`-`f`. -/
def is_lower_hex (c : Char) : Bool :=
  (48 ≤ c.toNat && c.toNat ≤ 57) || (97 ≤ c.toNat && c.toNat ≤ 102)

/-! ## Named-property mapping store -/

/-- Number of values of a `uint16_t`. -/
def UINT16_MOD : Nat := 2 ^ 16

/-- A `struct ldb_message_element`: the attribute name and its values, each
value the `length` bytes of its `data`. -/
structure ldb_message_element where
  name : String
  values : List String
  deriving DecidableEq, Repr

/-- A `struct ldb_message`: the elements of a record. -/
structure ldb_message where
  elements : List ldb_message_element
  deriving DecidableEq, Repr

/-- An ldb handle, as far as this code uses it: `ldb_search` with a base DN
(`none` for `ldb_get_default_basedn`) and a filter text gives the matching
records, or `none` when its return value is not `LDB_SUCCESS`. -/
structure ldb_context where
  search : Option String → String → Option (List ldb_message)

/-- What the calls on the named-property store read from outside this code:
whether `talloc_named` delivers memory, the number of values of an `unsigned
long`, and the number the ldb accessors `ldb_msg_find_attr_as_uint`,
`ldb_msg_find_attr_as_int` and `ldb_msg_find_attr_as_uint64` read from the
text of a value. -/
structure LdbEnv where
  talloc_named_ok : Bool
  ULONG_MOD : Nat
  as_uint : String → Nat
  as_int : String → Int
  as_uint64 : String → Nat

/-- The C function `tolower` in the "C" locale. -/
def tolower (c : Char) : Char :=
  if 65 ≤ c.toNat ∧ c.toNat ≤ 90 then Char.ofNat (c.toNat + 32) else c

/-- The bytes of a buffer read as a C string: those before the first NUL. -/
def c_string (value : String) : List Char :=
  value.data.takeWhile (fun c => c.toNat ≠ 0)

/-- The ldb call `ldb_msg_find_element (msg, attr_name)`: the first element
whose name is `attr_name`, letter case ignored; `none` is `NULL`. -/
def ldb_msg_find_element (msg : ldb_message) (attr_name : String) :
    Option ldb_message_element :=
  msg.elements.find? (fun el => el.name.data.map tolower == attr_name.data.map tolower)

/-- The ldb call `ldb_msg_find_ldb_val (msg, attr_name)`: the first value of
the element. -/
def ldb_msg_find_ldb_val (msg : ldb_message) (attr_name : String) : Option String :=
  match ldb_msg_find_element msg attr_name with
  | none => none
  | some el => el.values.head?

/-- The ldb call `ldb_msg_find_attr_as_uint (msg, attr_name, default_value)`,
an `unsigned int`. -/
def ldb_msg_find_attr_as_uint (env : LdbEnv) (msg : ldb_message) (attr_name : String)
    (default_value : Nat) : Nat :=
  match ldb_msg_find_ldb_val msg attr_name with
  | none => default_value
  | some v => env.as_uint v % UINT32_MOD

/-- The ldb call `ldb_msg_find_attr_as_int (msg, attr_name, default_value)`,
an `int`. -/
def ldb_msg_find_attr_as_int (env : LdbEnv) (msg : ldb_message) (attr_name : String)
    (default_value : Int) : Int :=
  match ldb_msg_find_ldb_val msg attr_name with
  | none => default_value
  | some v => env.as_int v

/-- The ldb call `ldb_msg_find_attr_as_uint64 (msg, attr_name,
default_value)`. -/
def ldb_msg_find_attr_as_uint64 (env : LdbEnv) (msg : ldb_message) (attr_name : String)
    (default_value : Nat) : Nat :=
  match ldb_msg_find_ldb_val msg attr_name with
  | none => default_value
  | some v => env.as_uint64 v % UINT64_MOD

/-- The ldb call `ldb_msg_find_attr_as_string (msg, attr_name, NULL)`: the
first value as a C string; `none` is `NULL`. -/
def ldb_msg_find_attr_as_string (msg : ldb_message) (attr_name : String) :
    Option (List Char) :=
  (ldb_msg_find_ldb_val msg attr_name).map c_string

/-- Conversion of an `int` to `uint32_t`. -/
def int_to_uint32 (i : Int) : Nat := (i % (UINT32_MOD : Int)).toNat

/-- The C library call `strtoul (s, NULL, 16)` for an `unsigned long` of
`ULONG_MOD` values: as `strtoull_16`, with `ULONG_MAX` for a value that does
not fit. -/
def strtoul_16 (ULONG_MOD : Nat) (s : List Char) : Nat :=
  let s1 := s.dropWhile isspace
  let neg : Bool := match s1 with
    | c :: _ => c = '-'
    | [] => false
  let s2 := match s1 with
    | c :: r => if c = '-' ∨ c = '+' then r else s1
    | [] => s1
  let s3 := match s2 with
    | z :: x :: r => if z = '0' ∧ (x = 'x' ∨ x = 'X') then r else s2
    | _ => s2
  let v := strtoull_digits s3 0
  if ULONG_MOD ≤ v then ULONG_MOD - 1
  else if neg then (ULONG_MOD - v) % ULONG_MOD
  else v

/-- The `struct mapistore_context`, as far as `mapistore_namedprops.c` reads
it: the handle on the named-property store (`none` is `NULL`). -/
structure mapistore_context where
  mapistore_nprops_ctx : Option ldb_context

/-- The `enum MAPISTORE_NAMEDPROPS_TYPE`; `other` is any value of the type
beside the two enumerators. -/
inductive MAPISTORE_NAMEDPROPS_TYPE
  | MAPISTORE_NAMEDPROPS_INTERNAL
  | MAPISTORE_NAMEDPROPS_EXTERNAL
  | other (v : Nat)
  deriving DecidableEq, Repr

open MAPISTORE_NAMEDPROPS_TYPE

/-- The static function `mapistore_namedprops_get_intext_record`: the error,
or the first record `res->msgs[0]` of a non-empty result and the records
after it. -/
def mapistore_namedprops_get_intext_record (ldb_ctx : Option ldb_context)
    (ntype : MAPISTORE_NAMEDPROPS_TYPE) :
    Except MapistoreError (ldb_message × List ldb_message) :=
  match ldb_ctx with
  | none => Except.error MAPISTORE_ERR_INVALID_PARAMETER
  | some ldb =>
    -- Step 1. Turn ntype into string value
    let stype : Option String := match ntype with
      | MAPISTORE_NAMEDPROPS_INTERNAL => some "Internal"
      | MAPISTORE_NAMEDPROPS_EXTERNAL => some "External"
      | other _ => none
    match stype with
    | none => Except.error MAPISTORE_ERR_INVALID_PARAMETER
    | some st =>
      match ldb.search none ("(&(objectClass=container)(cn=" ++ st ++ "))") with
      | none => Except.error MAPISTORE_ERR_DATABASE_OPS
      | some [] => Except.error MAPISTORE_ERR_DATABASE_OPS
      | some (msg0 :: msgs) => Except.ok (msg0, msgs)

/-- The function `mapistore_namedprops_get_default_id (mstore_ctx, ntype,
dflt_id)`.  The last argument is `none` for a `NULL` pointer and otherwise
the content of `*dflt_id` before the call; the result is the return code and
the content of `*dflt_id` after the call. -/
def mapistore_namedprops_get_default_id (env : LdbEnv) (mstore_ctx : Option mapistore_context)
    (ntype : MAPISTORE_NAMEDPROPS_TYPE) (dflt_id : Option Nat) :
    MapistoreError × Option Nat :=
  match mstore_ctx with
  | none => (MAPISTORE_ERR_NOT_INITIALIZED, dflt_id)
  | some ctx =>
    match ctx.mapistore_nprops_ctx with
    | none => (MAPISTORE_ERR_NOT_INITIALIZED, dflt_id)
    | some ldb_ctx =>
      match dflt_id with
      | none => (MAPISTORE_ERR_INVALID_PARAMETER, none)
      | some _ =>
        if !env.talloc_named_ok then (MAPISTORE_ERR_NO_MEMORY, dflt_id)
        else
          -- Step 1. Retrieve the internal/external record
          match mapistore_namedprops_get_intext_record (some ldb_ctx) ntype with
          | Except.error retval => (retval, dflt_id)
          | Except.ok (msg0, _) =>
            -- Step 2. Retrieve and return the mapping_index attribute
            let id := ldb_msg_find_attr_as_uint env msg0 "mapping_index" 0
            if id = 0 ∧ ntype = MAPISTORE_NAMEDPROPS_EXTERNAL then
              (MAPISTORE_ERR_NOT_FOUND, some id)
            else (MAPISTORE_SUCCESS, some id)

/-- The loop over `ldb_element->values` of `mapistore_namedprops_check_id`:
`true` when it returns `MAPISTORE_ERR_EXIST`, that is when a value of
non-zero length holds the identifier, read by `strtoul (data, NULL, 16)` into
the `uint32_t index`. -/
def check_id_reserved_loop (env : LdbEnv) (identifier : Nat) : List String → Bool
  | [] => false
  | v :: values =>
    if v.data.length ≠ 0 ∧ strtoul_16 env.ULONG_MOD (c_string v) % UINT32_MOD = identifier then
      true
    else check_id_reserved_loop env identifier values

/-- The function `mapistore_namedprops_check_id (mstore_ctx, ntype,
identifier)`. -/
def mapistore_namedprops_check_id (env : LdbEnv) (mstore_ctx : Option mapistore_context)
    (ntype : MAPISTORE_NAMEDPROPS_TYPE) (identifier : Nat) : MapistoreError :=
  match mstore_ctx with
  | none => MAPISTORE_ERR_NOT_INITIALIZED
  | some ctx =>
    match ctx.mapistore_nprops_ctx with
    | none => MAPISTORE_ERR_NOT_INITIALIZED
    | some ldb_ctx =>
      if !env.talloc_named_ok then MAPISTORE_ERR_NO_MEMORY
      else
        -- Step 1. Retrieve the internal/external record
        match mapistore_namedprops_get_intext_record (some ldb_ctx) ntype with
        | Except.error retval => retval
        | Except.ok (msg0, _) =>
          -- Step 2. Retrieve the mapping_index attribute
          let index := int_to_uint32 (ldb_msg_find_attr_as_int env msg0 "mapped_index" 0)
          if identifier < index then MAPISTORE_ERR_EXIST
          else
            -- Step 3. Check ensure the identifier is not reserved
            match ldb_msg_find_element msg0 "reserved_tags" with
            | none => MAPISTORE_SUCCESS
            | some ldb_element =>
              if check_id_reserved_loop env identifier ldb_element.values then
                MAPISTORE_ERR_EXIST
              else MAPISTORE_SUCCESS

/-- The `struct MAPINAMEID`, by its `ulKind`: `guid` is the text
`GUID_string` builds from `lpguid`, `lid` and `Name` are the members of the
`kind` union; `other` is a `ulKind` that is neither `MNID_ID` nor
`MNID_STRING`. -/
inductive MAPINAMEID
  | MNID_ID (guid : String) (lid : Nat)
  | MNID_STRING (guid : String) (Name : String)
  | other (guid : String) (ulKind : Nat)
  deriving DecidableEq, Repr

/-- The digits of the conversion `%.4x` of an `unsigned int`: lowercase
base 16 digits, with zeros in front up to 4 digits. -/
def hex_digits_4 (v : Nat) : List Char :=
  List.replicate (4 - (hex_digits 8 (v % UINT32_MOD) []).length) '0'
    ++ hex_digits 8 (v % UINT32_MOD) []

/-- The filter the `switch (nameid.ulKind)` of
`mapistore_namedprops_get_mapped_id` builds; `none` is the `NULL` the variable
keeps for another `ulKind`. -/
def get_mapped_id_filter (nameid : MAPINAMEID) : Option String :=
  match nameid with
  | MAPINAMEID.MNID_ID guid lid =>
    some ("(&(objectClass=MNID_ID)(oleguid=" ++ guid ++ ")(cn=0x"
      ++ String.mk (hex_digits_4 lid) ++ "))")
  | MAPINAMEID.MNID_STRING guid Name =>
    some ("(&(objectClass=MNID_STRING)(oleguid=" ++ guid ++ ")(cn=" ++ Name ++ "))")
  | MAPINAMEID.other _ _ => none

/-- The function `mapistore_namedprops_get_mapped_id (_ldb_ctx, nameid,
propID)`.  The last argument is `none` for a `NULL` pointer and otherwise the
content of `*propID` before the call; the result is the return code and the
content of `*propID` after the call, or `none` when the call hands a `NULL`
filter to `ldb_search`. -/
def mapistore_namedprops_get_mapped_id (env : LdbEnv) (_ldb_ctx : Option ldb_context)
    (nameid : MAPINAMEID) (propID : Option Nat) : Option (MapistoreError × Option Nat) :=
  match _ldb_ctx with
  | none => some (MAPISTORE_ERROR, propID)
  | some ldb_ctx =>
    match propID with
    | none => some (MAPISTORE_ERROR, none)
    | some _ =>
      match get_mapped_id_filter nameid with
      | none => none
      | some filter =>
        match ldb_ctx.search none filter with
        | none => some (MAPISTORE_ERROR, some 0)
        | some [] => some (MAPISTORE_ERROR, some 0)
        | some (msg0 :: _) =>
          let id := ldb_msg_find_attr_as_uint env msg0 "mapped_id" 0 % UINT16_MOD
          if id = 0 then some (MAPISTORE_ERROR, some id)
          else some (MAPISTORE_SUCCESS, some id)

/-- A sample environment: memory is available, `unsigned long` has 64 bits,
and the ldb accessors read a value as `strtoull` does in base 16. -/
def sample_ldb_env : LdbEnv :=
  { talloc_named_ok := true, ULONG_MOD := UINT64_MOD,
    as_uint := fun v => strtoull_16 (c_string v),
    as_int := fun v => (strtoull_16 (c_string v) : Int),
    as_uint64 := fun v => strtoull_16 (c_string v) }

/-- A store whose every search gives the one record `msg`. -/
def one_record_store (msg : ldb_message) : mapistore_context :=
  { mapistore_nprops_ctx := some { search := fun _ _ => some [msg] } }

/-- The range record of the scenario: `mapping_index = 0x8000`,
`reserved_tags = {0x8001}`. -/
def scenario_record : ldb_message :=
  { elements :=
      [{ name := "cn", values := ["Internal"] },
       { name := "mapping_index", values := ["0x8000"] },
       { name := "reserved_tags", values := ["0x8001"] }] }

/-- An ldb handle whose every search gives the one record `msg`. -/
def one_record_ldb (msg : ldb_message) : ldb_context :=
  { search := fun _ _ => some [msg] }

/-- A named-property record whose `mapped_id` attribute holds `text`. -/
def mapped_id_record (text : String) : ldb_message :=
  { elements := [{ name := "mapped_id", values := [text] }] }

/-! ## OpenChange dispatcher database: the receive folder -/

/-- The `enum MAPISTATUS` values `openchangedb.c` returns. -/
inductive MAPISTATUS
  | MAPI_E_SUCCESS
  | MAPI_E_NOT_FOUND
  | MAPI_E_NOT_INITIALIZED
  | MAPI_E_INVALID_PARAMETER
  | MAPI_E_CORRUPT_STORE
  deriving DecidableEq, Repr

open MAPISTATUS

/-- The test `!strncasecmp (s1, s2, n)` on two C strings: the first `n`
characters agree, letter case ignored, the end of a string counting as a
character of its own. -/
def strncasecmp_zero : List Char → List Char → Nat → Bool
  | _, _, 0 => true
  | [], [], _ + 1 => true
  | [], _ :: _, _ + 1 => false
  | _ :: _, [], _ + 1 => false
  | a :: s1, b :: s2, n + 1 => tolower a == tolower b && strncasecmp_zero s1 s2 n

/-- Step 3 of `openchangedb_get_ReceiveFolder`, the loop over the values of
`PidTagMessageClass`: the state is the string `*ExplicitMessageClass` points
to (`none` for `NULL`) and the variable `length`. -/
def get_ReceiveFolder_loop (MessageClass : List Char) :
    List String → Option (List Char) × Nat → Option (List Char) × Nat
  | [], st => st
  | v :: values, (explicit, length) =>
    if strncasecmp_zero MessageClass (c_string v) (c_string v).length
        ∧ (c_string v).length > length then
      let explicit1 : Option (List Char) :=
        if MessageClass = "All".data then some [] else some (c_string v)
      get_ReceiveFolder_loop MessageClass values (explicit1, (c_string v).length)
    else get_ReceiveFolder_loop MessageClass values (explicit, length)

/-- The expression `ldb_search` builds when the text `ldb_filter` is passed
to it as its format `exp_fmt`, with no argument after it: `%%` gives `%` and
every other character stands for itself; `none` when the text holds a `%` that
starts a conversion specification, which makes `ldb_search` read an argument
that was not passed. -/
def ldb_search_format : List Char → Option (List Char)
  | [] => some []
  | c :: r =>
    if c = '%' then
      match r with
      | [] => none
      | d :: r2 =>
        if d = '%' then
          match ldb_search_format r2 with
          | none => none
          | some t => some ('%' :: t)
        else none
    else
      match ldb_search_format r with
      | none => none
      | some t => some (c :: t)

/-- The function `openchangedb_get_ReceiveFolder (parent_ctx, ldb_ctx,
recipient, MessageClass, fid, ExplicitMessageClass)`, with `recipient` and
`MessageClass` C strings.  The last two arguments are the contents of `*fid`
and `*ExplicitMessageClass` before the call; the result is the return code and
their contents after the call.  Both searches pass the text `ldb_filter` as
the format of `ldb_search`.  The result is `none` when the behaviour of the
call is undefined: a filter holds a conversion specification, or the record
found in step 2 has no `PidTagMessageClass` element and the loop reads
through a `NULL` pointer.  String lengths are taken to fit the `int
length`. -/
def openchangedb_get_ReceiveFolder (env : LdbEnv) (ldb_ctx : ldb_context)
    (recipient MessageClass : String) (fid : Nat) (ExplicitMessageClass : Option (List Char)) :
    Option (MAPISTATUS × Nat × Option (List Char)) :=
  -- Step 1. Search Mailbox DN
  match ldb_search_format ("CN=" ++ recipient).data with
  | none => none
  | some expression1 =>
    match ldb_ctx.search none (String.mk expression1) with
    | none => some (MAPI_E_NOT_FOUND, fid, ExplicitMessageClass)
    | some [] => some (MAPI_E_NOT_FOUND, fid, ExplicitMessageClass)
    | some (mailbox :: _) =>
      match ldb_msg_find_attr_as_string mailbox "distinguishedName" with
      | none => some (MAPI_E_NOT_FOUND, fid, ExplicitMessageClass)
      | some dnstr =>
        -- Step 2. Search for MessageClass substring within user's mailbox
        match ldb_search_format ("(PidTagMessageClass=" ++ MessageClass ++ "*)").data with
        | none => none
        | some expression2 =>
          match ldb_ctx.search (some (String.mk dnstr)) (String.mk expression2) with
          | none => some (MAPI_E_NOT_FOUND, fid, ExplicitMessageClass)
          | some [] => some (MAPI_E_NOT_FOUND, fid, ExplicitMessageClass)
          | some (msg0 :: _) =>
            let fid1 := ldb_msg_find_attr_as_uint64 env msg0 "PidTagFolderId" 0
            -- Step 3. Find the longest ExplicitMessageClass matching MessageClass
            match ldb_msg_find_element msg0 "PidTagMessageClass" with
            | none => none
            | some ldb_element =>
              match get_ReceiveFolder_loop MessageClass.data ldb_element.values
                  (ExplicitMessageClass, 0) with
              | (none, _) => some (MAPI_E_NOT_FOUND, fid1, none)
              | (some explicit, _) => some (MAPI_E_SUCCESS, fid1, some explicit)

/-- A string is a case-insensitive prefix of another: it is a prefix once
both are put in lower case. -/
def is_prefix_ignoring_case (v s : List Char) : Prop :=
  List.IsPrefix (v.map tolower) (s.map tolower)

/-- A dispatcher database with the mailbox of `jdoe` and, inside it, one
folder record with the message classes `classes`. -/
def sample_dispatcher_db (classes : List String) : ldb_context :=
  { search := fun base _ =>
      match base with
      | none => some [{ elements := [{ name := "distinguishedName", values := ["CN=jdoe"] }] }]
      | some _ => some [{ elements := [{ name := "PidTagFolderId", values := ["0x10001"] },
                                       { name := "PidTagMessageClass", values := classes }] }] }

/-- The hexadecimal value of an entry in the plain sense of the words: the
number an entry denotes when it is `0x` or `0X`, which may be left out,
followed by one or more hexadecimal digits and nothing else; `none` for any
other text.  It is the reading the code's conversion is compared with. -/
def spec_hexadecimal_value (entry : String) : Option Nat :=
  let digits : List Char := match entry.data with
    | z :: x :: r => if z = '0' ∧ (x = 'x' ∨ x = 'X') then r else entry.data
    | _ => entry.data
  if digits ≠ [] ∧ digits.all (fun c => (hex_value c).isSome) = true then
    some (strtoull_digits digits 0)
  else none

/-- A range record that has only the attribute `reserved_tags`, with the
values `tags`. -/
def reserved_tags_record (tags : List String) : ldb_message :=
  { elements := [{ name := "reserved_tags", values := tags }] }

/-! ## Lemmas on the context-ID allocator -/

theorem uint32_mod_pos : 0 < UINT32_MOD := by
  unfold UINT32_MOD; norm_num

/-- What the loop of `mapistore_get_context_id` hands out is an entry of the
list, and the list it leaves is the old list without one occurrence of it. -/
theorem get_context_id_loop_perm (l : List Nat) (id : Nat) (rest : List Nat)
    (h : get_context_id_loop l = some (id, rest)) :
    id ≠ 0 ∧ List.Perm l (id :: rest) ∧ List.Sublist rest l := by
  induction l generalizing id rest with
  | nil => simp [get_context_id_loop] at h
  | cons el next ih =>
    by_cases hel : el = 0
    · cases hrec : get_context_id_loop next with
      | none => simp [get_context_id_loop, hel, hrec] at h
      | some r =>
        obtain ⟨id2, rest2⟩ := r
        simp [get_context_id_loop, hel, hrec] at h
        obtain ⟨h1, h2⟩ := h
        subst h1; subst h2
        obtain ⟨a, b, c⟩ := ih id2 rest2 hrec
        refine ⟨a, ?_, ?_⟩
        · subst hel
          exact (List.Perm.cons 0 b).trans (List.Perm.swap id2 0 rest2)
        · subst hel
          exact List.Sublist.cons₂ 0 c
    · simp [get_context_id_loop, hel] at h
      obtain ⟨h1, h2⟩ := h
      subst h1; subst h2
      exact ⟨hel, List.Perm.refl _, List.sublist_cons_self _ _⟩

/-- A call of `mapistore_get_context_id` with a non-`NULL` context leaves a
context whose free list is a sublist of the one before. -/
theorem get_context_id_free_sublist (p p' : processing_context) (slot : Nat)
    (h : (mapistore_get_context_id (some p) slot).2.1 = some p') :
    List.Sublist p'.free_ctx p.free_ctx := by
  unfold mapistore_get_context_id at h
  by_cases he : p.free_ctx = []
  · simp [he, get_context_id_loop] at h
    subst h
    simp [he]
  · simp only [he, if_false] at h
    cases hl : get_context_id_loop p.free_ctx with
    | none =>
      simp [hl] at h
      subst h
      exact List.Sublist.refl _
    | some r =>
      obtain ⟨id, rest⟩ := r
      simp [hl] at h
      subst h
      exact (get_context_id_loop_perm _ _ _ hl).2.2

/-- Any number of consecutive acquire calls leaves a free list that is a
sublist of the one before. -/
theorem acquire_n_free_sublist (slot n : Nat) (p : processing_context) :
    List.Sublist (acquire_n slot n p).2.free_ctx p.free_ctx := by
  induction n generalizing p with
  | zero => simp [acquire_n]
  | succ n ih =>
    unfold acquire_n
    cases hg : mapistore_get_context_id (some p) slot with
    | mk ret r =>
      obtain ⟨q, id⟩ := r
      cases q with
      | none => simp
      | some p' =>
        simp only
        have h1 : (mapistore_get_context_id (some p) slot).2.1 = some p' := by rw [hg]
        exact (ih p').trans (get_context_id_free_sublist p p' slot h1)

/-- The free list of a reachable allocator state holds no id twice. -/
theorem reachable_nodup (p : processing_context) (h : Reachable p) : p.free_ctx.Nodup := by
  induction h with
  | init m => simp [initial_context]
  | acquire p p' slot _ h ih =>
    exact List.Nodup.sublist (get_context_id_free_sublist p p' slot h) ih
  | release p p' x _ _ h ih =>
    unfold mapistore_free_context_id at h
    by_cases hx : p.free_ctx.any (fun el => el == x) = true
    · simp only [hx, if_true] at h
      simp at h
      subst h
      exact ih
    · simp only [hx] at h
      simp at h
      subst h
      simp only [List.any_eq_true, beq_iff_eq, not_exists, not_and] at hx
      have hnot : x ∉ p.free_ctx := fun hm => hx x hm rfl
      simp only
      exact List.Nodup.append ih (List.nodup_singleton x) (by
        intro a ha hb
        simp at hb
        subst hb
        exact hnot ha)

/-! ## Context-ID allocator: the properties -/

/-- C1 (the code at the failing input).  After `mapistore_free_context_id
(pctx, 0)` on the initial state, which succeeds, the free list is `[0]`; this
state is reachable, and on it `mapistore_get_context_id` returns
`MAPISTORE_SUCCESS` without writing the caller's slot and without changing
the state: a caller whose slot held 0 is handed context id 0. -/
theorem get_context_id_success_with_zero :
    mapistore_free_context_id (some (initial_context none)) 0
        = (MAPISTORE_SUCCESS, some { mapping_ctx := none, free_ctx := [0], last_context_id := 0 })
      ∧ Reachable { mapping_ctx := none, free_ctx := [0], last_context_id := 0 }
      ∧ ∀ slot : Nat,
          mapistore_get_context_id
              (some { mapping_ctx := none, free_ctx := [0], last_context_id := 0 }) slot
            = (MAPISTORE_SUCCESS,
                some { mapping_ctx := none, free_ctx := [0], last_context_id := 0 }, slot) := by
  refine ⟨rfl, ?_, fun slot => rfl⟩
  exact Reachable.release (initial_context none) _ 0 uint32_mod_pos (Reachable.init none) rfl

/-- C2 (counterexample).  With free list `[0, 5]` the call does not return
the id 0 of the head entry and does not remove the head entry: it returns 5
and leaves `[0]`. -/
theorem get_context_id_skips_zero_head :
    mapistore_get_context_id
        (some { mapping_ctx := none, free_ctx := [0, 5], last_context_id := 7 }) 9
      = (MAPISTORE_SUCCESS, some { mapping_ctx := none, free_ctx := [0], last_context_id := 7 }, 5)
    ∧ mapistore_get_context_id
        (some { mapping_ctx := none, free_ctx := [0, 5], last_context_id := 7 }) 9
      ≠ (MAPISTORE_SUCCESS, some { mapping_ctx := none, free_ctx := [5], last_context_id := 7 }, 0) := by
  constructor
  · rfl
  · decide

/-- C2 (amended).  For every allocator state whose free list is non-empty
with a non-zero id `x` in its head entry, `mapistore_get_context_id` returns
`x`, removes exactly the head entry (the free list becomes the tail, in
order) and leaves the counter unchanged. -/
theorem get_context_id_pops_nonzero_head (p : processing_context) (x : Nat) (rest : List Nat)
    (slot : Nat) (hfree : p.free_ctx = x :: rest) (hx : x ≠ 0) :
    mapistore_get_context_id (some p) slot
      = (MAPISTORE_SUCCESS,
          some { mapping_ctx := p.mapping_ctx, free_ctx := rest,
                 last_context_id := p.last_context_id }, x) := by
  simp [mapistore_get_context_id, hfree, get_context_id_loop, hx]

theorem get_context_id_pops_nonzero_head_witness :
    mapistore_get_context_id
        (some { mapping_ctx := none, free_ctx := [4, 0, 2], last_context_id := 9 }) 0
      = (MAPISTORE_SUCCESS,
          some { mapping_ctx := none, free_ctx := [0, 2], last_context_id := 9 }, 4) :=
  get_context_id_pops_nonzero_head
    { mapping_ctx := none, free_ctx := [4, 0, 2], last_context_id := 9 } 4 [0, 2] 0 rfl (by decide)

/-- C3 (counterexample).  With an empty free list and counter `2^32 - 1` the
call returns 0 and stores 0 as the counter, not `c + 1 = 2^32`. -/
theorem get_context_id_counter_wraps :
    mapistore_get_context_id
        (some { mapping_ctx := none, free_ctx := [], last_context_id := 4294967295 }) 0
      = (MAPISTORE_SUCCESS, some { mapping_ctx := none, free_ctx := [], last_context_id := 0 }, 0)
    ∧ mapistore_get_context_id
        (some { mapping_ctx := none, free_ctx := [], last_context_id := 4294967295 }) 0
      ≠ (MAPISTORE_SUCCESS,
          some { mapping_ctx := none, free_ctx := [], last_context_id := 4294967295 + 1 },
          4294967295 + 1) := by
  constructor
  · simp [mapistore_get_context_id, get_context_id_loop, UINT32_MOD]
  · simp [mapistore_get_context_id, get_context_id_loop, UINT32_MOD]

/-- One acquire call on an empty free list, counter below `2^32 - 1`. -/
theorem get_context_id_fresh (p : processing_context) (slot : Nat) (hfree : p.free_ctx = [])
    (hc : p.last_context_id + 1 < UINT32_MOD) :
    mapistore_get_context_id (some p) slot
      = (MAPISTORE_SUCCESS,
          some { mapping_ctx := p.mapping_ctx, free_ctx := [],
                 last_context_id := p.last_context_id + 1 }, p.last_context_id + 1) := by
  simp [mapistore_get_context_id, hfree, get_context_id_loop, Nat.mod_eq_of_lt hc]

/-- Consecutive acquire calls on an empty free list count upwards. -/
theorem acquire_n_fresh (slot n : Nat) (p : processing_context) (hfree : p.free_ctx = [])
    (hc : p.last_context_id + n < UINT32_MOD) :
    acquire_n slot n p
      = (List.range' (p.last_context_id + 1) n,
          { mapping_ctx := p.mapping_ctx, free_ctx := [],
            last_context_id := p.last_context_id + n }) := by
  induction n generalizing p with
  | zero =>
    cases p
    simp_all [acquire_n]
  | succ n ih =>
    have h1 : p.last_context_id + 1 < UINT32_MOD := by omega
    unfold acquire_n
    rw [get_context_id_fresh p slot hfree h1]
    simp only
    rw [ih _ rfl (by simp only; omega)]
    simp [List.range'_succ, Nat.add_assoc, Nat.add_comm 1 n]

/-- C3 (amended).  For every allocator state with an empty free list and a
counter `c` with `c + 1 < 2^32`, `mapistore_get_context_id` returns `c + 1`,
stores `c + 1` as the new counter and leaves the free list empty; and from the
initial state, `n < 2^32` consecutive acquire calls return `1, 2, ..., n`,
strictly increasing and pairwise distinct, ending with counter `n`. -/
theorem get_context_id_counts_up :
    (∀ (p : processing_context) (slot : Nat), p.free_ctx = [] →
        p.last_context_id + 1 < UINT32_MOD →
        mapistore_get_context_id (some p) slot
          = (MAPISTORE_SUCCESS,
              some { mapping_ctx := p.mapping_ctx, free_ctx := [],
                     last_context_id := p.last_context_id + 1 }, p.last_context_id + 1))
    ∧ (∀ (m : Option Nat) (slot n : Nat), n < UINT32_MOD →
        acquire_n slot n (initial_context m)
            = (List.range' 1 n, { mapping_ctx := m, free_ctx := [], last_context_id := n })
          ∧ List.Pairwise (fun a b => a < b) (acquire_n slot n (initial_context m)).1
          ∧ (acquire_n slot n (initial_context m)).1.Nodup) := by
  refine ⟨get_context_id_fresh, ?_⟩
  intro m slot n hn
  have h := acquire_n_fresh slot n (initial_context m) rfl
    (by simpa [initial_context] using hn)
  simp only [initial_context, Nat.zero_add] at h
  simp only [initial_context]
  rw [h]
  refine ⟨rfl, ?_, List.nodup_range' 1 n⟩
  simp only
  exact List.pairwise_lt_range' 1 n

theorem get_context_id_counts_up_witness :
    acquire_n 0 3 (initial_context none)
        = ([1, 2, 3], { mapping_ctx := none, free_ctx := [], last_context_id := 3 })
    ∧ mapistore_get_context_id
        (some { mapping_ctx := none, free_ctx := [], last_context_id := 41 }) 0
      = (MAPISTORE_SUCCESS, some { mapping_ctx := none, free_ctx := [], last_context_id := 42 }, 42) :=
  ⟨(get_context_id_counts_up.2 none 0 3 (by norm_num [UINT32_MOD])).1,
   get_context_id_counts_up.1 { mapping_ctx := none, free_ctx := [], last_context_id := 41 } 0 rfl
     (by norm_num [UINT32_MOD])⟩

/-- C4.  If `mapistore_free_context_id (pctx, x)` succeeds, the context is
not `NULL` afterwards and a second `mapistore_free_context_id (pctx, x)`
right after it returns `MAPISTORE_ERR_CORRUPTED` and leaves the context (free
list and counter) as the first call left it. -/
theorem free_context_id_twice_corrupted (pctx : Option processing_context) (x : Nat)
    (h : (mapistore_free_context_id pctx x).1 = MAPISTORE_SUCCESS) :
    (∃ p1, (mapistore_free_context_id pctx x).2 = some p1)
    ∧ mapistore_free_context_id (mapistore_free_context_id pctx x).2 x
        = (MAPISTORE_ERR_CORRUPTED, (mapistore_free_context_id pctx x).2) := by
  cases pctx with
  | none => simp [mapistore_free_context_id] at h
  | some p =>
    by_cases hx : p.free_ctx.any (fun el => el == x) = true
    · simp [mapistore_free_context_id, hx] at h
    · have hx2 : ¬ ∃ a, a ∈ p.free_ctx ∧ a = x := by simpa using hx
      simp [mapistore_free_context_id, hx2]

theorem free_context_id_twice_corrupted_witness :
    (∃ p1, (mapistore_free_context_id
        (some { mapping_ctx := none, free_ctx := [3], last_context_id := 5 }) 4).2 = some p1)
    ∧ mapistore_free_context_id
        (mapistore_free_context_id
          (some { mapping_ctx := none, free_ctx := [3], last_context_id := 5 }) 4).2 4
      = (MAPISTORE_ERR_CORRUPTED,
          (mapistore_free_context_id
            (some { mapping_ctx := none, free_ctx := [3], last_context_id := 5 }) 4).2) :=
  free_context_id_twice_corrupted
    (some { mapping_ctx := none, free_ctx := [3], last_context_id := 5 }) 4 rfl

/-- C5.  For every allocator state and every id `x` that is not in the free
list (whatever its relation to the counter, so also an id that was never
issued), `mapistore_free_context_id (pctx, x)` returns `MAPISTORE_SUCCESS`,
the new free list is the old one with `x` appended at its end, and the
counter is unchanged. -/
theorem free_context_id_appends (p : processing_context) (x : Nat) (hx : x ∉ p.free_ctx) :
    mapistore_free_context_id (some p) x
      = (MAPISTORE_SUCCESS,
          some { mapping_ctx := p.mapping_ctx, free_ctx := p.free_ctx ++ [x],
                 last_context_id := p.last_context_id }) := by
  have hx2 : ¬ ∃ a, a ∈ p.free_ctx ∧ a = x := by
    rintro ⟨a, ha, rfl⟩
    exact hx ha
  simp [mapistore_free_context_id, hx2]

theorem free_context_id_appends_witness :
    mapistore_free_context_id
        (some { mapping_ctx := none, free_ctx := [2, 1], last_context_id := 3 }) 77
      = (MAPISTORE_SUCCESS,
          some { mapping_ctx := none, free_ctx := [2, 1, 77], last_context_id := 3 }) :=
  free_context_id_appends { mapping_ctx := none, free_ctx := [2, 1], last_context_id := 3 } 77
    (by decide)

/-- A release leaves the free list as it was or with its argument appended. -/
theorem free_context_id_free_list (p p' : processing_context) (x : Nat)
    (h : (mapistore_free_context_id (some p) x).2 = some p') :
    p'.free_ctx = p.free_ctx ∨ p'.free_ctx = p.free_ctx ++ [x] := by
  unfold mapistore_free_context_id at h
  by_cases hx : p.free_ctx.any (fun el => el == x) = true
  · simp only [hx, if_true] at h
    simp at h
    subst h
    exact Or.inl rfl
  · simp only [hx] at h
    simp at h
    subst h
    exact Or.inr rfl

/-- An id that is not in the free list stays out of it through any calls
that do not release it. -/
theorem run_calls_keeps_absent (id : Nat) (calls : List AllocatorCall) (p : processing_context)
    (hid : id ∉ p.free_ctx) (hcalls : ∀ c ∈ calls, c ≠ AllocatorCall.release id) :
    id ∉ (run_calls calls p).free_ctx := by
  induction calls generalizing p with
  | nil => simpa [run_calls] using hid
  | cons c calls ih =>
    have hrest : ∀ d ∈ calls, d ≠ AllocatorCall.release id :=
      fun d hd => hcalls d (List.mem_cons_of_mem c hd)
    cases c with
    | acquire slot =>
      unfold run_calls
      cases hg : (mapistore_get_context_id (some p) slot).2.1 with
      | none => simpa using hid
      | some p' =>
        simp only
        apply ih p' _ hrest
        intro hmem
        exact hid (List.Sublist.subset (get_context_id_free_sublist p p' slot hg) hmem)
    | release x =>
      have hx : x ≠ id := by
        intro he
        subst he
        exact hcalls _ (List.mem_cons_self _ calls) rfl
      unfold run_calls
      cases hf : (mapistore_free_context_id (some p) x).2 with
      | none => simpa using hid
      | some p' =>
        simp only
        apply ih p' _ hrest
        rcases free_context_id_free_list p p' x hf with h1 | h1
        · rw [h1]
          exact hid
        · rw [h1]
          intro hmem
          rcases List.mem_append.1 hmem with h2 | h2
          · exact hid h2
          · simp at h2
            exact hx h2.symm

/-- C6.  In every allocator state reachable from the initial state the free
list contains no id twice.  Hence, when `mapistore_get_context_id` hands out
an id from the free list of such a state, that id is no longer in the free
list; and after any further calls, acquire calls and release calls mixed,
none of which releases that id, the id is still not in the free list and an
id handed out from the free list is a different one. -/
theorem reachable_free_list_nodup (p : processing_context) (h : Reachable p) :
    p.free_ctx.Nodup
    ∧ ∀ (slot id : Nat) (rest : List Nat), get_context_id_loop p.free_ctx = some (id, rest) →
        mapistore_get_context_id (some p) slot
            = (MAPISTORE_SUCCESS,
                some { mapping_ctx := p.mapping_ctx, free_ctx := rest,
                       last_context_id := p.last_context_id }, id)
          ∧ id ∈ p.free_ctx
          ∧ id ∉ rest
          ∧ ∀ (calls : List AllocatorCall), (∀ c ∈ calls, c ≠ AllocatorCall.release id) →
              id ∉ (run_calls calls
                    { mapping_ctx := p.mapping_ctx, free_ctx := rest,
                      last_context_id := p.last_context_id }).free_ctx
              ∧ ∀ (id2 : Nat) (rest2 : List Nat),
                  get_context_id_loop
                      (run_calls calls
                        { mapping_ctx := p.mapping_ctx, free_ctx := rest,
                          last_context_id := p.last_context_id }).free_ctx
                    = some (id2, rest2) → id2 ≠ id := by
  have hnd := reachable_nodup p h
  refine ⟨hnd, ?_⟩
  intro slot id rest hl
  obtain ⟨_, hperm, _⟩ := get_context_id_loop_perm _ _ _ hl
  have hnd2 : (id :: rest).Nodup := (List.Perm.nodup_iff hperm).1 hnd
  have hnotin : id ∉ rest := (List.nodup_cons.1 hnd2).1
  have hne : p.free_ctx ≠ [] := by
    intro he
    rw [he] at hl
    simp [get_context_id_loop] at hl
  refine ⟨?_, ?_, hnotin, ?_⟩
  · simp [mapistore_get_context_id, hne, hl]
  · exact (List.Perm.mem_iff hperm).2 (List.mem_cons_self id rest)
  · intro calls hcalls
    have habs := run_calls_keeps_absent id calls
      { mapping_ctx := p.mapping_ctx, free_ctx := rest, last_context_id := p.last_context_id }
      hnotin hcalls
    refine ⟨habs, ?_⟩
    intro id2 rest2 hl2
    obtain ⟨_, hperm2, _⟩ := get_context_id_loop_perm _ _ _ hl2
    have hmem : id2 ∈ (run_calls calls
        { mapping_ctx := p.mapping_ctx, free_ctx := rest,
          last_context_id := p.last_context_id }).free_ctx :=
      (List.Perm.mem_iff hperm2).2 (List.mem_cons_self id2 rest2)
    intro heq
    subst heq
    exact habs hmem

theorem reachable_free_list_nodup_witness :
    ({ mapping_ctx := none, free_ctx := [6, 7, 9], last_context_id := 0 }
        : processing_context).free_ctx.Nodup
    ∧ mapistore_get_context_id
        (some { mapping_ctx := none, free_ctx := [6, 7, 9], last_context_id := 0 }) 0
      = (MAPISTORE_SUCCESS,
          some { mapping_ctx := none, free_ctx := [7, 9], last_context_id := 0 }, 6)
    ∧ 6 ∉ (run_calls
        [AllocatorCall.release 8, AllocatorCall.acquire 0, AllocatorCall.release 7,
         AllocatorCall.acquire 0, AllocatorCall.acquire 0, AllocatorCall.acquire 0,
         AllocatorCall.acquire 0]
        { mapping_ctx := none, free_ctx := [7, 9], last_context_id := 0 }).free_ctx :=
  ⟨(reachable_free_list_nodup
      { mapping_ctx := none, free_ctx := [6, 7, 9], last_context_id := 0 }
      (Reachable.release { mapping_ctx := none, free_ctx := [6, 7], last_context_id := 0 } _ 9
        (by norm_num [UINT32_MOD])
        (Reachable.release { mapping_ctx := none, free_ctx := [6], last_context_id := 0 } _ 7
          (by norm_num [UINT32_MOD])
          (Reachable.release (initial_context none) _ 6 (by norm_num [UINT32_MOD])
            (Reachable.init none) rfl) rfl) rfl)).1,
   ((reachable_free_list_nodup
      { mapping_ctx := none, free_ctx := [6, 7, 9], last_context_id := 0 }
      (Reachable.release { mapping_ctx := none, free_ctx := [6, 7], last_context_id := 0 } _ 9
        (by norm_num [UINT32_MOD])
        (Reachable.release { mapping_ctx := none, free_ctx := [6], last_context_id := 0 } _ 7
          (by norm_num [UINT32_MOD])
          (Reachable.release (initial_context none) _ 6 (by norm_num [UINT32_MOD])
            (Reachable.init none) rfl) rfl) rfl)).2 0 6 [7, 9] rfl).1,
   (((reachable_free_list_nodup
      { mapping_ctx := none, free_ctx := [6, 7, 9], last_context_id := 0 }
      (Reachable.release { mapping_ctx := none, free_ctx := [6, 7], last_context_id := 0 } _ 9
        (by norm_num [UINT32_MOD])
        (Reachable.release { mapping_ctx := none, free_ctx := [6], last_context_id := 0 } _ 7
          (by norm_num [UINT32_MOD])
          (Reachable.release (initial_context none) _ 6 (by norm_num [UINT32_MOD])
            (Reachable.init none) rfl) rfl) rfl)).2 0 6 [7, 9] rfl).2.2.2
      [AllocatorCall.release 8, AllocatorCall.acquire 0, AllocatorCall.release 7,
       AllocatorCall.acquire 0, AllocatorCall.acquire 0, AllocatorCall.acquire 0,
       AllocatorCall.acquire 0] (by decide)).1⟩

/-- C7.  For every allocator state with an empty free list and every
non-zero id `x`, `mapistore_free_context_id (pctx, x)` succeeds and the
`mapistore_get_context_id` call that follows returns exactly `x` and leaves
the state that held before the release: empty free list, same counter. -/
theorem free_then_get_round_trip (p : processing_context) (x slot : Nat)
    (hfree : p.free_ctx = []) (hx : x ≠ 0) :
    (mapistore_free_context_id (some p) x).1 = MAPISTORE_SUCCESS
    ∧ mapistore_get_context_id (mapistore_free_context_id (some p) x).2 slot
        = (MAPISTORE_SUCCESS, some p, x) := by
  cases p with
  | mk m f c =>
    simp only at hfree
    subst hfree
    simp [mapistore_free_context_id, mapistore_get_context_id, get_context_id_loop, hx]

theorem free_then_get_round_trip_witness :
    (mapistore_free_context_id
        (some { mapping_ctx := none, free_ctx := [], last_context_id := 8 }) 3).1
      = MAPISTORE_SUCCESS
    ∧ mapistore_get_context_id
        (mapistore_free_context_id
          (some { mapping_ctx := none, free_ctx := [], last_context_id := 8 }) 3).2 0
      = (MAPISTORE_SUCCESS,
          some { mapping_ctx := none, free_ctx := [], last_context_id := 8 }, 3) :=
  free_then_get_round_trip { mapping_ctx := none, free_ctx := [], last_context_id := 8 } 3 0 rfl
    (by decide)

/-! ## Mapping path and ID mapping context: the properties -/

/-- The test of `mapistore_set_mapping_path`: the call is rejected with
`MAPISTORE_ERR_ALREADY_INITIALIZED`, state unchanged, exactly when the static
pointer `mapping_ctx` is not `NULL`. -/
theorem set_mapping_path_rejected_iff (env : Env) (g : State) (path : Option String) :
    mapistore_set_mapping_path env g path = some (MAPISTORE_ERR_ALREADY_INITIALIZED, g)
      ↔ g.mapping_ctx ≠ none := by
  constructor
  · intro h hnone
    unfold mapistore_set_mapping_path at h
    rw [hnone] at h
    simp only [Option.isSome_none, Bool.false_eq_true, if_false] at h
    cases path with
    | none =>
      cases hmp : g.mapping_path <;> simp [hmp] at h
    | some q =>
      cases hmp : g.mapping_path <;> simp [hmp] at h <;>
        (split at h <;> simp at h)
  · intro h
    unfold mapistore_set_mapping_path
    cases hm : g.mapping_ctx with
    | none => exact absurd hm h
    | some a => simp

/-- C8 (the code at the failing input).  In a fresh process, a call of
`mapistore_init_mapping_context` that cannot open the used-ID database fails
with `MAPISTORE_ERR_DATABASE_INIT` and leaves `mapping_ctx` pointing to the
released memory; every later `mapistore_set_mapping_path`, whatever its path
and environment, is then rejected with `MAPISTORE_ERR_ALREADY_INITIALIZED`
although no initialization has succeeded. -/
theorem set_mapping_path_rejected_after_failed_init :
    mapistore_init_mapping_context sample_config no_database_env (initial_state [])
        (some (initial_context none))
      = some (MAPISTORE_ERR_DATABASE_INIT,
          { mapping_ctx := some 1, mapping_ctx_mem := none, mapping_path := CharPtr.NULL,
            files := [] },
          some (initial_context none))
    ∧ ∀ (env : Env) (path : Option String),
        mapistore_set_mapping_path env
            { mapping_ctx := some 1, mapping_ctx_mem := none, mapping_path := CharPtr.NULL,
              files := [] } path
          = some (MAPISTORE_ERR_ALREADY_INITIALIZED,
              { mapping_ctx := some 1, mapping_ctx_mem := none, mapping_path := CharPtr.NULL,
                files := [] }) := by
  constructor
  · rfl
  · intro env path
    rfl

/-- C9 (the code at the failing input).  With the allocator uninitialized
and `/srv/mapistore` configured by a successful call,
`mapistore_set_mapping_path ("/nonexistent")` fails with
`MAPISTORE_ERR_NO_DIRECTORY` after it has released the configured string:
`mapistore_get_mapping_path`, which returned `/srv/mapistore` before the
call, now returns the pointer to the released memory. -/
theorem set_mapping_path_failure_releases_path :
    mapistore_set_mapping_path one_directory_env (initial_state []) (some "/srv/mapistore")
      = some (MAPISTORE_SUCCESS,
          { mapping_ctx := none, mapping_ctx_mem := none,
            mapping_path := CharPtr.str "/srv/mapistore", files := [] })
    ∧ mapistore_get_mapping_path sample_config
        { mapping_ctx := none, mapping_ctx_mem := none,
          mapping_path := CharPtr.str "/srv/mapistore", files := [] }
      = CharPtr.str "/srv/mapistore"
    ∧ mapistore_set_mapping_path one_directory_env
        { mapping_ctx := none, mapping_ctx_mem := none,
          mapping_path := CharPtr.str "/srv/mapistore", files := [] } (some "/nonexistent")
      = some (MAPISTORE_ERR_NO_DIRECTORY,
          { mapping_ctx := none, mapping_ctx_mem := none, mapping_path := CharPtr.freed,
            files := [] })
    ∧ mapistore_get_mapping_path sample_config
        { mapping_ctx := none, mapping_ctx_mem := none, mapping_path := CharPtr.freed,
          files := [] }
      = CharPtr.freed := by
  refine ⟨?_, ?_, ?_, ?_⟩ <;> decide

/-- C10.  If the static pointer `mapping_ctx` is set (the allocator is
already initialized), `mapistore_init_mapping_context` with a non-`NULL`
processing context returns `MAPISTORE_SUCCESS`, stores that same pointer in
`pctx->mapping_ctx` and changes nothing else: the shared state after the
call, with the cached `last_id` and the files of both ledgers, is the state
before the call. -/
theorem init_mapping_context_idempotent (cfg : Config) (env : Env) (g : State)
    (p : processing_context) (a : Nat) (hinit : g.mapping_ctx = some a) :
    mapistore_init_mapping_context cfg env g (some p)
      = some (MAPISTORE_SUCCESS, g,
          some { mapping_ctx := g.mapping_ctx, free_ctx := p.free_ctx,
                 last_context_id := p.last_context_id }) := by
  simp [mapistore_init_mapping_context, hinit]

theorem init_mapping_context_idempotent_witness :
    mapistore_init_mapping_context sample_config failing_env initialized_state
        (some { mapping_ctx := none, free_ctx := [2], last_context_id := 5 })
      = some (MAPISTORE_SUCCESS, initialized_state,
          some { mapping_ctx := some 1, free_ctx := [2], last_context_id := 5 }) :=
  init_mapping_context_idempotent sample_config failing_env initialized_state
    { mapping_ctx := none, free_ctx := [2], last_context_id := 5 } 1 rfl

/-- The first initialization of a fresh process on an empty disk, with memory
and database I/O available, succeeds and produces `initialized_state`. -/
theorem init_mapping_context_fresh_process :
    mapistore_init_mapping_context sample_config one_directory_env (initial_state [])
        (some (initial_context none))
      = some (MAPISTORE_SUCCESS, initialized_state,
          some { mapping_ctx := some 1, free_ctx := [], last_context_id := 0 }) := by
  decide

/-! ## Context-ID allocator: zero-valued free entries -/

/-- The loop of `mapistore_get_context_id` skips leading zero-valued nodes and
stops at the first non-zero one. -/
theorem get_context_id_loop_zeros (k x : Nat) (rest : List Nat) (hx : x ≠ 0) :
    get_context_id_loop (List.replicate k 0 ++ x :: rest)
      = some (x, List.replicate k 0 ++ rest) := by
  induction k with
  | zero => simp [get_context_id_loop, hx]
  | succ k ih => simp [List.replicate_succ, get_context_id_loop, ih]

/-- The loop of `mapistore_get_context_id` finds nothing in a list of
zero-valued nodes. -/
theorem get_context_id_loop_all_zero (l : List Nat) (h : ∀ e ∈ l, e = 0) :
    get_context_id_loop l = none := by
  induction l with
  | nil => rfl
  | cons el next ih =>
    have h0 : el = 0 := h el (List.mem_cons_self el next)
    have hn : ∀ e ∈ next, e = 0 := fun e he => h e (List.mem_cons_of_mem el he)
    simp [get_context_id_loop, h0, ih hn]

/-- C18.  On a free list that starts with `k` zero-valued entries followed
by an entry with a non-zero id `x`, `mapistore_get_context_id` returns `x`
and removes only that entry: the zero-valued entries before it and all the
entries after it stay, in order, and the counter is unchanged.  On a
non-empty free list whose entries are all zero the call returns
`MAPISTORE_SUCCESS`, writes nothing to the caller's slot and leaves counter
and free list as they were. -/
theorem get_context_id_zero_entries :
    (∀ (p : processing_context) (slot k x : Nat) (rest : List Nat),
        p.free_ctx = List.replicate k 0 ++ x :: rest → x ≠ 0 →
        mapistore_get_context_id (some p) slot
          = (MAPISTORE_SUCCESS,
              some { mapping_ctx := p.mapping_ctx, free_ctx := List.replicate k 0 ++ rest,
                     last_context_id := p.last_context_id }, x))
    ∧ (∀ (p : processing_context) (slot : Nat),
        p.free_ctx ≠ [] → (∀ e ∈ p.free_ctx, e = 0) →
        mapistore_get_context_id (some p) slot = (MAPISTORE_SUCCESS, some p, slot)) := by
  constructor
  · intro p slot k x rest hfree hx
    have hne : p.free_ctx ≠ [] := by
      rw [hfree]
      simp
    have hl := get_context_id_loop_zeros k x rest hx
    rw [← hfree] at hl
    simp [mapistore_get_context_id, hne, hl]
  · intro p slot hne hall
    simp [mapistore_get_context_id, hne, get_context_id_loop_all_zero _ hall]

theorem get_context_id_zero_entries_witness :
    mapistore_get_context_id
        (some { mapping_ctx := none, free_ctx := [0, 0, 7, 0, 3], last_context_id := 9 }) 1
      = (MAPISTORE_SUCCESS,
          some { mapping_ctx := none, free_ctx := [0, 0, 0, 3], last_context_id := 9 }, 7)
    ∧ mapistore_get_context_id
        (some { mapping_ctx := none, free_ctx := [0, 0], last_context_id := 9 }) 1
      = (MAPISTORE_SUCCESS,
          some { mapping_ctx := none, free_ctx := [0, 0], last_context_id := 9 }, 1) :=
  ⟨get_context_id_zero_entries.1
      { mapping_ctx := none, free_ctx := [0, 0, 7, 0, 3], last_context_id := 9 } 1 2 7 [0, 3]
      rfl (by decide),
   get_context_id_zero_entries.2
      { mapping_ctx := none, free_ctx := [0, 0], last_context_id := 9 } 1 (by decide)
      (by decide)⟩

/-! ## Lemmas on the hexadecimal text of the last-id record -/

theorem uint64_mod_eq : UINT64_MOD = 16 ^ 16 := by
  unfold UINT64_MOD; norm_num

/-- A digit rendered by `hex_digit` is read back by `hex_value`. -/
theorem hex_value_hex_digit (d : Nat) (h : d < 16) : hex_value (hex_digit d) = some d := by
  interval_cases d <;> decide

/-- No digit rendered by `hex_digit` is the NUL character. -/
theorem hex_digit_not_nul (d : Nat) (h : d < 16) : (hex_digit d).toNat ≠ 0 := by
  interval_cases d <;> decide

/-- The digit loop of `strtoull` reads the digits `hex_digits` wrote for `v`
and goes on with what follows them. -/
theorem strtoull_digits_hex_digits (fuel v : Nat) (acc : List Char) (h : v < 16 ^ fuel) :
    strtoull_digits (hex_digits fuel v acc) 0 = strtoull_digits acc v := by
  induction fuel generalizing v acc with
  | zero =>
    have hv : v = 0 := by simpa using h
    subst hv
    simp [hex_digits]
  | succ fuel ih =>
    unfold hex_digits
    by_cases hlt : v < 16
    · simp [hlt, strtoull_digits, hex_value_hex_digit v hlt]
    · have hdiv : v / 16 < 16 ^ fuel := by
        rw [Nat.div_lt_iff_lt_mul (by norm_num)]
        rw [pow_succ] at h
        exact h
      simp only [hlt, if_false]
      rw [ih (v / 16) _ hdiv]
      simp only [strtoull_digits, hex_value_hex_digit (v % 16) (Nat.mod_lt v (by norm_num))]
      congr 1
      omega

/-- The text `hex_digits` writes holds no NUL character. -/
theorem hex_digits_not_nul (fuel v : Nat) (acc : List Char)
    (hacc : ∀ c ∈ acc, c.toNat ≠ 0) : ∀ c ∈ hex_digits fuel v acc, c.toNat ≠ 0 := by
  induction fuel generalizing v acc with
  | zero => simpa [hex_digits] using hacc
  | succ fuel ih =>
    unfold hex_digits
    by_cases hlt : v < 16
    · simp only [hlt, if_true]
      intro c hc
      rcases List.mem_cons.1 hc with h1 | h1
      · rw [h1]
        exact hex_digit_not_nul v hlt
      · exact hacc c h1
    · simp only [hlt, if_false]
      apply ih
      intro c hc
      rcases List.mem_cons.1 hc with h1 | h1
      · rw [h1]
        exact hex_digit_not_nul _ (Nat.mod_lt v (by norm_num))
      · exact hacc c h1

/-- The text of `"0x%" PRIx64` is not empty. -/
theorem asprintf_0x_PRIx64_length (v : Nat) : (asprintf_0x_PRIx64 v).data.length ≠ 0 := by
  simp [asprintf_0x_PRIx64]

/-- Copying the text of `"0x%" PRIx64` as a C string keeps all of it. -/
theorem talloc_strndup_asprintf (v : Nat) :
    talloc_strndup (asprintf_0x_PRIx64 v)
      = '0' :: 'x' :: hex_digits 16 (v % UINT64_MOD) [] := by
  unfold talloc_strndup asprintf_0x_PRIx64
  simp only
  rw [List.takeWhile_eq_self_iff]
  intro c hc
  rcases List.mem_cons.1 hc with h1 | h1
  · rw [h1]; decide
  · rcases List.mem_cons.1 h1 with h2 | h2
    · rw [h2]; decide
    · have := hex_digits_not_nul 16 (v % UINT64_MOD) [] (by simp) c h2
      simpa using this

/-- What `strtoull (s, NULL, 16)` reads from the text `"0x%" PRIx64` wrote for
`v` is `v` as a `uint64_t`. -/
theorem strtoull_16_asprintf (v : Nat) :
    strtoull_16 (talloc_strndup (asprintf_0x_PRIx64 v)) = v % UINT64_MOD := by
  rw [talloc_strndup_asprintf]
  have hlt : v % UINT64_MOD < 16 ^ 16 := by
    rw [← uint64_mod_eq]
    exact Nat.mod_lt v (by unfold UINT64_MOD; norm_num)
  have hd := strtoull_digits_hex_digits 16 (v % UINT64_MOD) [] hlt
  have hsp : isspace '0' = false := by decide
  unfold strtoull_16
  simp only [List.dropWhile_cons, hsp]
  simp [hd, strtoull_digits]
  intro hle
  have h2 : v % UINT64_MOD < UINT64_MOD := by rw [uint64_mod_eq]; exact hlt
  omega

/-! ## Lemmas on the ledger files -/

/-- A file that `tdb_open` could open exists afterwards, with the records it
had before (none if it was created). -/
theorem tdb_open_lookup_self (env : Env) (files : List (String × Tdb)) (path : String)
    (hok : env.tdb_open_ok path = true) :
    tdb_open env files path
      = (some path, (tdb_open env files path).2)
    ∧ (tdb_open env files path).2.lookup path = some ((files.lookup path).getD []) := by
  unfold tdb_open
  cases hl : files.lookup path with
  | none => simp [hok, List.lookup_append, hl]
  | some db => simp [hok, hl]

/-- A call of `tdb_open` keeps the files that exist, with their records. -/
theorem tdb_open_lookup_kept (env : Env) (files : List (String × Tdb)) (path q : String)
    (db : Tdb) (hq : files.lookup q = some db) :
    (tdb_open env files path).2.lookup q = some db := by
  unfold tdb_open
  by_cases hok : env.tdb_open_ok path = true
  · cases hl : files.lookup path with
    | none =>
      simp only [hok, if_true]
      simp [List.lookup_append, hq]
    | some d =>
      simp only [hok, if_true]
      exact hq
  · simp only [hok]
    exact hq

/-- A call of `tdb_open` on a file that exists changes nothing on disk. -/
theorem tdb_open_existing (env : Env) (files : List (String × Tdb)) (path : String)
    (db : Tdb) (hq : files.lookup path = some db) :
    (tdb_open env files path).2 = files := by
  unfold tdb_open
  by_cases hok : env.tdb_open_ok path = true
  · simp [hok, hq]
  · simp [hok]

/-- The records of the files after `tdb_store` added the record `r` to the
file at `path`. -/
theorem lookup_after_store (files : List (String × Tdb)) (path q : String)
    (r : String × String) :
    (files.map (fun f => if f.1 = path then (f.1, f.2 ++ [r]) else f)).lookup q
      = (files.lookup q).map (fun db => if q = path then db ++ [r] else db) := by
  induction files with
  | nil => simp
  | cons f rest ih =>
    obtain ⟨name, db⟩ := f
    by_cases hq : q = name
    · subst hq
      by_cases hp : q = path
      · subst hp
        simp [List.lookup_cons]
      · simp [List.lookup_cons, hp]
    · have hb : (q == name) = false := by simpa using hq
      by_cases hp : name = path
      · subst hp
        simp only [List.map_cons, if_true, List.lookup_cons, hb]
        exact ih
      · simp only [List.map_cons, hp, if_false, List.lookup_cons, hb]
        exact ih

/-! ## Initialization of the ID mapping context: the last-id record -/

/-- Step 3 on a ledger with a non-empty last-id record that `tdb_fetch`
delivers: no error, `last_id` is what `strtoull (tmp_buf, NULL, 16)` reads
from the record, the files stay as they are. -/
theorem retrieve_present_record (cfg : Config) (env : Env) (files : List (String × Tdb))
    (used_path : String) (db : Tdb) (text : String) (hfetch : env.tdb_fetch_ok = true)
    (hdb : files.lookup used_path = some db)
    (hrec : db.lookup cfg.MAPISTORE_DB_LAST_ID_KEY = some text)
    (hne : text.data.length ≠ 0) :
    init_retrieve_last_id cfg env files used_path
      = Except.ok (strtoull_16 (talloc_strndup text), files) := by
  have hf : tdb_fetch env files used_path cfg.MAPISTORE_DB_LAST_ID_KEY = some text := by
    simp [tdb_fetch, hfetch, hdb, hrec]
  have hne2 : text.length ≠ 0 := hne
  unfold init_retrieve_last_id
  simp only [hf]
  simp [hne2]

/-- Step 3 on a ledger without last-id record that can be written: no error,
`last_id` is the starting value, and the ledger gets the record with the text
`"0x%" PRIx64` of the starting value. -/
theorem retrieve_absent_record (cfg : Config) (env : Env) (files : List (String × Tdb))
    (used_path : String) (db0 : Tdb) (hstore : env.tdb_store_ok = true)
    (hdb : files.lookup used_path = some db0)
    (hnone : db0.lookup cfg.MAPISTORE_DB_LAST_ID_KEY = none) :
    init_retrieve_last_id cfg env files used_path
        = Except.ok (cfg.MAPISTORE_DB_LAST_ID_VAL % UINT64_MOD,
            files.map (fun f => if f.1 = used_path then
              (f.1, f.2 ++ [(cfg.MAPISTORE_DB_LAST_ID_KEY,
                asprintf_0x_PRIx64 cfg.MAPISTORE_DB_LAST_ID_VAL)]) else f))
      ∧ (files.map (fun f => if f.1 = used_path then
              (f.1, f.2 ++ [(cfg.MAPISTORE_DB_LAST_ID_KEY,
                asprintf_0x_PRIx64 cfg.MAPISTORE_DB_LAST_ID_VAL)]) else f)).lookup used_path
          = some (db0 ++ [(cfg.MAPISTORE_DB_LAST_ID_KEY,
              asprintf_0x_PRIx64 cfg.MAPISTORE_DB_LAST_ID_VAL)]) := by
  have hf : tdb_fetch env files used_path cfg.MAPISTORE_DB_LAST_ID_KEY = none := by
    unfold tdb_fetch
    simp [hdb, hnone]
  have hs : tdb_store_insert env files used_path cfg.MAPISTORE_DB_LAST_ID_KEY
      (asprintf_0x_PRIx64 cfg.MAPISTORE_DB_LAST_ID_VAL)
      = some (files.map (fun f => if f.1 = used_path then
          (f.1, f.2 ++ [(cfg.MAPISTORE_DB_LAST_ID_KEY,
            asprintf_0x_PRIx64 cfg.MAPISTORE_DB_LAST_ID_VAL)]) else f)) := by
    unfold tdb_store_insert
    rw [hdb]
    simp only [hstore, if_true, hnone]
  constructor
  · unfold init_retrieve_last_id
    simp only [hf, hs]
    rfl
  · rw [lookup_after_store, hdb]
    simp

/-- Steps 1 and 2 when the member reads as `NULL`, the mapping path is a live
string and the file can be opened: the member gets the handle. -/
theorem init_open_database_null (cfg : Config) (env : Env) (g : State) (name dir : String)
    (files : List (String × Tdb))
    (hpath : mapistore_get_mapping_path cfg g = CharPtr.str dir)
    (hok : env.tdb_open_ok (dir ++ "/" ++ name) = true) :
    init_open_database cfg env g true name files
      = some (TdbPtr.tdb (dir ++ "/" ++ name), (tdb_open env files (dir ++ "/" ++ name)).2) := by
  have h := (tdb_open_lookup_self env files _ hok).1
  unfold init_open_database
  simp only [if_true, hpath]
  rw [h]

/-- Steps 1 and 2 when the member does not read as `NULL`: the body is
skipped. -/
theorem init_open_database_wild (cfg : Config) (env : Env) (g : State) (name : String)
    (files : List (String × Tdb)) :
    init_open_database cfg env g false name files = some (TdbPtr.wild, files) := by
  simp [init_open_database]

/-- The first call of `mapistore_init_mapping_context` when the member
`used_ctx` of the new object reads as `NULL` and both ledgers can be opened:
steps 1 and 2 leave files that keep every file the used-ID `tdb_open` left,
and the call ends as step 3 ends, run on the handle of the used-ID ledger. -/
theorem init_reaches_step3 (cfg : Config) (env : Env) (g : State) (p : processing_context)
    (a : Nat) (dir : String)
    (hctx : g.mapping_ctx = none) (hmem : env.talloc_named = some a)
    (hpath : mapistore_get_mapping_path cfg g = CharPtr.str dir)
    (hnull : env.fresh_used_ctx_null = true)
    (hU : env.tdb_open_ok (used_id_path cfg dir) = true)
    (hF : env.tdb_open_ok (free_id_path cfg dir) = true) :
    ∃ (free_ctx : TdbPtr) (files2 : List (String × Tdb)),
      (∀ q db, (tdb_open env g.files (used_id_path cfg dir)).2.lookup q = some db →
        files2.lookup q = some db)
      ∧ mapistore_init_mapping_context cfg env g (some p)
        = match init_retrieve_last_id cfg env files2 (used_id_path cfg dir) with
          | Except.error retval => some (retval, init_failed g a files2, some p)
          | Except.ok (last_id, files3) =>
            some (MAPISTORE_SUCCESS,
              { mapping_ctx := some a,
                mapping_ctx_mem := some
                  { used_ctx := TdbPtr.tdb (used_id_path cfg dir), free_ctx := free_ctx,
                    last_id := last_id },
                mapping_path := g.mapping_path,
                files := files3 },
              some { mapping_ctx := some a, free_ctx := p.free_ctx,
                     last_context_id := p.last_context_id }) := by
  have h1 := init_open_database_null cfg env g cfg.MAPISTORE_DB_NAME_USED_ID dir g.files hpath hU
  by_cases hfree : env.fresh_free_ctx_null = true
  · have h2 := init_open_database_null cfg env g cfg.MAPISTORE_DB_NAME_FREE_ID dir
      (tdb_open env g.files (used_id_path cfg dir)).2 hpath hF
    refine ⟨TdbPtr.tdb (free_id_path cfg dir),
      (tdb_open env (tdb_open env g.files (used_id_path cfg dir)).2 (free_id_path cfg dir)).2,
      fun q db hq => tdb_open_lookup_kept env _ _ q db hq, ?_⟩
    simp only [used_id_path, free_id_path] at h1 h2 ⊢
    unfold mapistore_init_mapping_context
    simp only [hctx, hmem, hnull, hfree, h1, h2]
  · have hfree2 : env.fresh_free_ctx_null = false := by simpa using hfree
    refine ⟨TdbPtr.wild, (tdb_open env g.files (used_id_path cfg dir)).2, fun q db hq => hq, ?_⟩
    simp only [used_id_path, free_id_path] at h1 ⊢
    unfold mapistore_init_mapping_context
    simp only [hctx, hmem, hnull, hfree2, h1, init_open_database_wild]

/-- The restart seen from `mapistore_init_mapping_context` as a whole: when,
in both processes, the member `used_ctx` of the new mapping context reads as
`NULL` and the ledgers can be opened, the first call, on a used-ID ledger
without last-id record, and the call of the later process, on the files the
first one left, both return `MAPISTORE_SUCCESS` with the starting value as
cached `last_id`. -/
theorem init_restart_keeps_last_id (cfg : Config) (env1 env2 : Env) (g1 g2 : State)
    (p1 p2 : processing_context) (a1 a2 : Nat) (dir : String)
    (hctx1 : g1.mapping_ctx = none) (hmem1 : env1.talloc_named = some a1)
    (hpath1 : mapistore_get_mapping_path cfg g1 = CharPtr.str dir)
    (hnull1 : env1.fresh_used_ctx_null = true)
    (hU1 : env1.tdb_open_ok (used_id_path cfg dir) = true)
    (hF1 : env1.tdb_open_ok (free_id_path cfg dir) = true)
    (hstore1 : env1.tdb_store_ok = true)
    (habs : ∀ db, g1.files.lookup (used_id_path cfg dir) = some db →
      db.lookup cfg.MAPISTORE_DB_LAST_ID_KEY = none)
    (hctx2 : g2.mapping_ctx = none) (hmem2 : env2.talloc_named = some a2)
    (hpath2 : mapistore_get_mapping_path cfg g2 = CharPtr.str dir)
    (hnull2 : env2.fresh_used_ctx_null = true)
    (hU2 : env2.tdb_open_ok (used_id_path cfg dir) = true)
    (hF2 : env2.tdb_open_ok (free_id_path cfg dir) = true)
    (hfetch2 : env2.tdb_fetch_ok = true)
    (hfiles : ∀ s1 q1, mapistore_init_mapping_context cfg env1 g1 (some p1)
      = some (MAPISTORE_SUCCESS, s1, q1) → g2.files = s1.files) :
    ∃ (s1 s2 : State) (q1 q2 : Option processing_context),
      mapistore_init_mapping_context cfg env1 g1 (some p1) = some (MAPISTORE_SUCCESS, s1, q1)
      ∧ s1.mapping_ctx_mem.map (fun m => m.last_id)
          = some (cfg.MAPISTORE_DB_LAST_ID_VAL % UINT64_MOD)
      ∧ mapistore_init_mapping_context cfg env2 g2 (some p2) = some (MAPISTORE_SUCCESS, s2, q2)
      ∧ s2.mapping_ctx_mem.map (fun m => m.last_id)
          = some (cfg.MAPISTORE_DB_LAST_ID_VAL % UINT64_MOD) := by
  obtain ⟨fc1, files2, hkept1, hinit1⟩ :=
    init_reaches_step3 cfg env1 g1 p1 a1 dir hctx1 hmem1 hpath1 hnull1 hU1 hF1
  have hdb0 : ((g1.files.lookup (used_id_path cfg dir)).getD []).lookup
      cfg.MAPISTORE_DB_LAST_ID_KEY = none := by
    cases hl : g1.files.lookup (used_id_path cfg dir) with
    | none => simp
    | some db => simpa using habs db hl
  have hl2 := hkept1 _ _ (tdb_open_lookup_self env1 g1.files _ hU1).2
  obtain ⟨hr1, hlook⟩ := retrieve_absent_record cfg env1 files2 _ _ hstore1 hl2 hdb0
  rw [hr1] at hinit1
  simp only at hinit1
  have hrec : (((g1.files.lookup (used_id_path cfg dir)).getD [])
      ++ [(cfg.MAPISTORE_DB_LAST_ID_KEY,
      asprintf_0x_PRIx64 cfg.MAPISTORE_DB_LAST_ID_VAL)]).lookup cfg.MAPISTORE_DB_LAST_ID_KEY
      = some (asprintf_0x_PRIx64 cfg.MAPISTORE_DB_LAST_ID_VAL) := by
    simp [List.lookup_append, hdb0]
  have hg2 := hfiles _ _ hinit1
  simp only at hg2
  obtain ⟨fc2, files2b, hkept2, hinit2⟩ :=
    init_reaches_step3 cfg env2 g2 p2 a2 dir hctx2 hmem2 hpath2 hnull2 hU2 hF2
  have hl3 := hkept2 _ _ (tdb_open_lookup_kept env2 g2.files (used_id_path cfg dir) _ _
    (by rw [hg2]; exact hlook))
  have hr2 := retrieve_present_record cfg env2 files2b _ _ _ hfetch2 hl3 hrec
    (asprintf_0x_PRIx64_length _)
  rw [strtoull_16_asprintf] at hr2
  rw [hr2] at hinit2
  simp only at hinit2
  exact ⟨_, _, _, _, hinit1, rfl, hinit2, rfl⟩

/-- Every digit `hex_digit` renders is a lowercase hexadecimal digit. -/
theorem hex_digit_lower (d : Nat) (h : d < 16) : is_lower_hex (hex_digit d) = true := by
  interval_cases d <;> decide

/-- The text `hex_digits` writes has at most `fuel` digits in front of `acc`,
all of them lowercase hexadecimal. -/
theorem hex_digits_shape (fuel v : Nat) (acc : List Char)
    (hacc : ∀ c ∈ acc, is_lower_hex c = true) :
    (hex_digits fuel v acc).length ≤ fuel + acc.length
      ∧ ∀ c ∈ hex_digits fuel v acc, is_lower_hex c = true := by
  induction fuel generalizing v acc with
  | zero => simpa [hex_digits] using hacc
  | succ fuel ih =>
    unfold hex_digits
    by_cases hlt : v < 16
    · simp only [hlt, if_true]
      refine ⟨by simp; omega, ?_⟩
      intro c hc
      rcases List.mem_cons.1 hc with h1 | h1
      · rw [h1]
        exact hex_digit_lower v hlt
      · exact hacc c h1
    · simp only [hlt, if_false]
      have hacc2 : ∀ c ∈ hex_digit (v % 16) :: acc, is_lower_hex c = true := by
        intro c hc
        rcases List.mem_cons.1 hc with h1 | h1
        · rw [h1]
          exact hex_digit_lower _ (Nat.mod_lt v (by norm_num))
        · exact hacc c h1
      obtain ⟨h1, h2⟩ := ih (v / 16) _ hacc2
      refine ⟨?_, h2⟩
      simp only [List.length_cons] at h1
      omega

/-- The conversion `%.16` PRIx64 always gives exactly 16 lowercase
hexadecimal digits: the filter of `openchangedb_get_folder_property` carries
the folder id as `0x` and 16 digits. -/
theorem hex_digits_16_shape (v : Nat) :
    (hex_digits_16 v).length = 16 ∧ ∀ c ∈ hex_digits_16 v, is_lower_hex c = true := by
  obtain ⟨h1, h2⟩ := hex_digits_shape 16 (v % UINT64_MOD) [] (by simp)
  simp only [List.length_nil, Nat.add_zero] at h1
  unfold hex_digits_16
  constructor
  · simp only [List.length_append, List.length_replicate]
    omega
  · intro c hc
    rcases List.mem_append.1 hc with h | h
    · rw [(List.mem_replicate.1 h).2]
      decide
    · exact h2 c h

/-- C12 (counterexample).  For the folder id 1,
`openchangedb_lookup_folder_property` builds the filter
`(PidTagFolderId=0x1)` while `openchangedb_get_folder_property` builds
`(PidTagFolderId=0x0000000000000001)`: the two filters differ; and the
last-id record `mapistore_init_mapping_context` writes for the starting value
1 is the 3-character text `0x1`, not `0x` and 16 digits. -/
theorem folder_id_filters_differ :
    openchangedb_lookup_folder_property_filter 1 = "(PidTagFolderId=0x1)"
    ∧ openchangedb_get_folder_property_filter 1 = "(PidTagFolderId=0x0000000000000001)"
    ∧ openchangedb_lookup_folder_property_filter 1 ≠ openchangedb_get_folder_property_filter 1
    ∧ asprintf_0x_PRIx64 1 = "0x1"
    ∧ (asprintf_0x_PRIx64 1).length ≠ 18 := by
  refine ⟨?_, ?_, ?_, ?_, ?_⟩ <;> decide

/-- The text `hex_digits` writes with some fuel has at least one digit. -/
theorem hex_digits_length_pos (fuel v : Nat) (acc : List Char) :
    acc.length + 1 ≤ (hex_digits (fuel + 1) v acc).length := by
  induction fuel generalizing v acc with
  | zero =>
    unfold hex_digits
    by_cases hlt : v < 16 <;> simp [hlt, hex_digits]
  | succ fuel ih =>
    unfold hex_digits
    by_cases hlt : v < 16
    · simp [hlt]
    · simp only [hlt, if_false]
      have := ih (v / 16) (hex_digit (v % 16) :: acc)
      simp only [List.length_cons] at this
      omega

/-- The text `hex_digits` writes has no more digits than the value needs:
at most `k` for a value below `16 ^ k`. -/
theorem hex_digits_length_le (fuel k v : Nat) (acc : List Char) (hk : 1 ≤ k) (hkf : k ≤ fuel)
    (hv : v < 16 ^ k) : (hex_digits fuel v acc).length ≤ k + acc.length := by
  induction fuel generalizing k v acc with
  | zero => omega
  | succ fuel ih =>
    unfold hex_digits
    by_cases hlt : v < 16
    · simp only [hlt, if_true, List.length_cons]
      omega
    · simp only [hlt, if_false]
      have hk2 : 2 ≤ k := by
        by_contra hcon
        have hk1 : k = 1 := by omega
        subst hk1
        simp at hv
        omega
      obtain ⟨j, rfl⟩ : ∃ j, k = j + 1 := ⟨k - 1, by omega⟩
      have hdiv : v / 16 < 16 ^ j := by
        rw [Nat.div_lt_iff_lt_mul (by norm_num)]
        rw [pow_succ] at hv
        exact hv
      have := ih j (v / 16) (hex_digit (v % 16) :: acc) (by omega) (by omega) hdiv
      simp only [List.length_cons] at this
      omega

/-- Zeros in front do not change the number the digit loop reads. -/
theorem strtoull_digits_zeros (k : Nat) (l : List Char) :
    strtoull_digits (List.replicate k '0' ++ l) 0 = strtoull_digits l 0 := by
  induction k with
  | zero => simp
  | succ k ih =>
    have h0 : hex_value '0' = some 0 := by decide
    simp only [List.replicate_succ, List.cons_append, strtoull_digits, h0]
    exact ih

/-- C12 (amended).  The last-id record `mapistore_init_mapping_context`
writes for a value is `0x` followed by the lowercase hexadecimal digits of
the value as a `uint64_t`, at least one and no more than the value needs (at
most `k` digits for a value below `16 ^ k`, so not zero-padded); the folder id
in the filter of `openchangedb_get_folder_property` is `0x` followed by
exactly 16 lowercase hexadecimal digits that denote the folder id. -/
theorem identifier_text_shape :
    (∀ v : Nat, ∃ ds : List Char,
        asprintf_0x_PRIx64 v = String.mk ('0' :: 'x' :: ds)
        ∧ 1 ≤ ds.length ∧ ds.length ≤ 16
        ∧ (∀ c ∈ ds, is_lower_hex c = true)
        ∧ strtoull_digits ds 0 = v % UINT64_MOD
        ∧ (∀ k : Nat, 1 ≤ k → k ≤ 16 → v % UINT64_MOD < 16 ^ k → ds.length ≤ k))
    ∧ (∀ fid : Nat, ∃ ds : List Char,
        openchangedb_get_folder_property_filter fid
          = "(PidTagFolderId=" ++ String.mk ('0' :: 'x' :: ds) ++ ")"
        ∧ ds.length = 16
        ∧ (∀ c ∈ ds, is_lower_hex c = true)
        ∧ strtoull_digits ds 0 = fid % UINT64_MOD) := by
  have hlt : ∀ v : Nat, v % UINT64_MOD < 16 ^ 16 := by
    intro v
    rw [← uint64_mod_eq]
    exact Nat.mod_lt v (by unfold UINT64_MOD; norm_num)
  constructor
  · intro v
    obtain ⟨h1, h2⟩ := hex_digits_shape 16 (v % UINT64_MOD) [] (by simp)
    refine ⟨hex_digits 16 (v % UINT64_MOD) [], rfl, ?_, by simpa using h1, h2, ?_, ?_⟩
    · simpa using hex_digits_length_pos 15 (v % UINT64_MOD) []
    · simpa [strtoull_digits] using strtoull_digits_hex_digits 16 (v % UINT64_MOD) [] (hlt v)
    · intro k hk hk16 hv
      simpa using hex_digits_length_le 16 k (v % UINT64_MOD) [] hk hk16 hv
  · intro fid
    obtain ⟨h1, h2⟩ := hex_digits_16_shape fid
    refine ⟨hex_digits_16 fid, rfl, h1, h2, ?_⟩
    unfold hex_digits_16
    rw [strtoull_digits_zeros]
    simpa [strtoull_digits] using strtoull_digits_hex_digits 16 (fid % UINT64_MOD) [] (hlt fid)

theorem identifier_text_shape_witness :
    (asprintf_0x_PRIx64 255).data.length ≤ 4
    ∧ (openchangedb_get_folder_property_filter 255).data.length = 35 := by
  obtain ⟨ds, h1, _, _, _, _, h6⟩ := identifier_text_shape.1 255
  obtain ⟨es, g1, g2, _, _⟩ := identifier_text_shape.2 255
  have hk : ds.length ≤ 2 := h6 2 (by norm_num) (by norm_num) (by norm_num [UINT64_MOD])
  constructor
  · rw [h1]
    simp only [List.length_cons]
    omega
  · rw [g1]
    simp only [String.data_append, List.length_append, List.length_cons, g2]
    decide

/-! ## Named-property mapping store: the properties -/

/-- The loop over the reserved tags answers `true` exactly when some value of
non-zero length holds the identifier. -/
theorem check_id_reserved_loop_iff (env : LdbEnv) (identifier : Nat) (values : List String) :
    check_id_reserved_loop env identifier values = true
      ↔ ∃ v ∈ values, v.data.length ≠ 0
          ∧ strtoul_16 env.ULONG_MOD (c_string v) % UINT32_MOD = identifier := by
  induction values with
  | nil => simp [check_id_reserved_loop]
  | cons v rest ih =>
    unfold check_id_reserved_loop
    by_cases h : v.data.length ≠ 0
        ∧ strtoul_16 env.ULONG_MOD (c_string v) % UINT32_MOD = identifier
    · rw [if_pos h]
      simp only [true_iff]
      exact ⟨v, List.mem_cons_self v rest, h⟩
    · rw [if_neg h, ih]
      constructor
      · rintro ⟨w, hw, hp⟩
        exact ⟨w, List.mem_cons_of_mem v hw, hp⟩
      · rintro ⟨w, hw, hp⟩
        rcases List.mem_cons.1 hw with h1 | h1
        · subst h1
          exact absurd hp h
        · exact ⟨w, h1, hp⟩

/-- What `strtoul (s, NULL, 16)` reads from the text `0x` and the lowercase
hexadecimal digits of `v` is `v`, when `v` fits an `unsigned long`. -/
theorem strtoul_16_asprintf (ULONG_MOD v : Nat) (hfit : v % UINT64_MOD < ULONG_MOD) :
    strtoul_16 ULONG_MOD (c_string (asprintf_0x_PRIx64 v)) = v % UINT64_MOD := by
  have hc : c_string (asprintf_0x_PRIx64 v) = talloc_strndup (asprintf_0x_PRIx64 v) := rfl
  rw [hc, talloc_strndup_asprintf]
  have hlt : v % UINT64_MOD < 16 ^ 16 := by
    rw [← uint64_mod_eq]
    exact Nat.mod_lt v (by unfold UINT64_MOD; norm_num)
  have hd := strtoull_digits_hex_digits 16 (v % UINT64_MOD) [] hlt
  have hsp : isspace '0' = false := by decide
  unfold strtoul_16
  simp only [List.dropWhile_cons, hsp]
  simp [hd, strtoull_digits]
  intro hle
  omega

/-- A reserved tag written as `0x` and the hexadecimal digits of a 32-bit
identifier is found by the loop of `mapistore_namedprops_check_id`. -/
theorem check_id_reserved_loop_hex_text (env : LdbEnv) (identifier : Nat)
    (values : List String) (hid : identifier < UINT32_MOD) (hul : UINT32_MOD ≤ env.ULONG_MOD)
    (hmem : asprintf_0x_PRIx64 identifier ∈ values) :
    check_id_reserved_loop env identifier values = true := by
  rw [check_id_reserved_loop_iff]
  have h64 : identifier % UINT64_MOD = identifier := by
    apply Nat.mod_eq_of_lt
    unfold UINT32_MOD at hid
    unfold UINT64_MOD
    omega
  refine ⟨_, hmem, asprintf_0x_PRIx64_length identifier, ?_⟩
  rw [strtoul_16_asprintf env.ULONG_MOD identifier (by rw [h64]; omega), h64]
  exact Nat.mod_eq_of_lt hid

/-- C14.  When the range record of the partition is found (the search for
it gives at least one record, `msg0` the first), with `m` the value
`ldb_msg_find_attr_as_uint` reads from its `mapping_index` attribute (0 when
the attribute is missing): for the External partition
`mapistore_namedprops_get_default_id` returns `MAPISTORE_ERR_NOT_FOUND` if
`m` is 0 and otherwise `MAPISTORE_SUCCESS` with `m`; for the Internal
partition it returns `MAPISTORE_SUCCESS` with `m`, also when `m` is 0. -/
theorem get_default_id_by_partition (env : LdbEnv) (ldb_ctx : ldb_context) (slot : Nat)
    (msg0 : ldb_message) (msgs : List ldb_message) (hmem : env.talloc_named_ok = true) :
    (ldb_ctx.search none "(&(objectClass=container)(cn=External))" = some (msg0 :: msgs) →
      mapistore_namedprops_get_default_id env (some { mapistore_nprops_ctx := some ldb_ctx })
          MAPISTORE_NAMEDPROPS_EXTERNAL (some slot)
        = if ldb_msg_find_attr_as_uint env msg0 "mapping_index" 0 = 0 then
            (MAPISTORE_ERR_NOT_FOUND, some 0)
          else (MAPISTORE_SUCCESS, some (ldb_msg_find_attr_as_uint env msg0 "mapping_index" 0)))
    ∧ (ldb_ctx.search none "(&(objectClass=container)(cn=Internal))" = some (msg0 :: msgs) →
      mapistore_namedprops_get_default_id env (some { mapistore_nprops_ctx := some ldb_ctx })
          MAPISTORE_NAMEDPROPS_INTERNAL (some slot)
        = (MAPISTORE_SUCCESS, some (ldb_msg_find_attr_as_uint env msg0 "mapping_index" 0)))
    ∧ (ldb_msg_find_element msg0 "mapping_index" = none →
      ldb_msg_find_attr_as_uint env msg0 "mapping_index" 0 = 0) := by
  have hE : "(&(objectClass=container)(cn=" ++ "External" ++ "))"
      = "(&(objectClass=container)(cn=External))" := by decide
  have hI : "(&(objectClass=container)(cn=" ++ "Internal" ++ "))"
      = "(&(objectClass=container)(cn=Internal))" := by decide
  refine ⟨?_, ?_, ?_⟩
  · intro hs
    simp only [mapistore_namedprops_get_default_id, mapistore_namedprops_get_intext_record,
      hmem, hE, hs]
    by_cases hz : ldb_msg_find_attr_as_uint env msg0 "mapping_index" 0 = 0
    · simp [hz]
    · simp [hz]
  · intro hs
    simp only [mapistore_namedprops_get_default_id, mapistore_namedprops_get_intext_record,
      hmem, hI, hs]
    simp
  · intro hnone
    simp [ldb_msg_find_attr_as_uint, ldb_msg_find_ldb_val, hnone]

theorem get_default_id_by_partition_witness :
    mapistore_namedprops_get_default_id sample_ldb_env
        (some { mapistore_nprops_ctx := some { search := fun _ _ => some [scenario_record] } })
        MAPISTORE_NAMEDPROPS_EXTERNAL (some 5)
      = (if ldb_msg_find_attr_as_uint sample_ldb_env scenario_record "mapping_index" 0 = 0 then
            (MAPISTORE_ERR_NOT_FOUND, some 0)
          else (MAPISTORE_SUCCESS,
            some (ldb_msg_find_attr_as_uint sample_ldb_env scenario_record "mapping_index" 0)))
    ∧ mapistore_namedprops_get_default_id sample_ldb_env
        (some { mapistore_nprops_ctx := some { search := fun _ _ => some [scenario_record] } })
        MAPISTORE_NAMEDPROPS_INTERNAL (some 5)
      = (MAPISTORE_SUCCESS,
          some (ldb_msg_find_attr_as_uint sample_ldb_env scenario_record "mapping_index" 0)) :=
  ⟨(get_default_id_by_partition sample_ldb_env { search := fun _ _ => some [scenario_record] } 5
      scenario_record [] rfl).1 rfl,
   (get_default_id_by_partition sample_ldb_env { search := fun _ _ => some [scenario_record] } 5
      scenario_record [] rfl).2.1 rfl⟩

/-- C15 (the code at the failing input).  On the Internal range record of
the scenario, `mapping_index = 0x8000` and `reserved_tags = {0x8001}`,
`mapistore_namedprops_get_default_id` returns `0x8000`, but
`mapistore_namedprops_check_id (Internal, 0x7FFF)` returns
`MAPISTORE_SUCCESS`: it reads the frontier from the attribute `mapped_index`,
which the record does not have, and compares with 0. -/
theorem check_id_ignores_mapping_index :
    mapistore_namedprops_get_default_id sample_ldb_env (some (one_record_store scenario_record))
        MAPISTORE_NAMEDPROPS_INTERNAL (some 0)
      = (MAPISTORE_SUCCESS, some 0x8000)
    ∧ ldb_msg_find_element scenario_record "mapped_index" = none
    ∧ mapistore_namedprops_check_id sample_ldb_env (some (one_record_store scenario_record))
        MAPISTORE_NAMEDPROPS_INTERNAL 0x7FFF
      = MAPISTORE_SUCCESS
    ∧ mapistore_namedprops_check_id sample_ldb_env (some (one_record_store scenario_record))
        MAPISTORE_NAMEDPROPS_INTERNAL 0x8001
      = MAPISTORE_ERR_EXIST
    ∧ mapistore_namedprops_check_id sample_ldb_env (some (one_record_store scenario_record))
        MAPISTORE_NAMEDPROPS_INTERNAL 0x8002
      = MAPISTORE_SUCCESS := by
  refine ⟨?_, ?_, ?_, ?_, ?_⟩ <;> decide

/-- A hexadecimal digit is no white space, no sign, no NUL and no `x`. -/
theorem hex_char_facts (c : Char) (h : (hex_value c).isSome = true) :
    isspace c = false ∧ c ≠ '-' ∧ c ≠ '+' ∧ c.toNat ≠ 0 ∧ c ≠ 'x' ∧ c ≠ 'X' := by
  have hr : 48 ≤ c.toNat ∧ c.toNat ≤ 102 ∧ c.toNat ≠ 88 := by
    unfold hex_value at h
    by_cases h1 : 48 ≤ c.toNat ∧ c.toNat ≤ 57
    · omega
    · by_cases h2 : 97 ≤ c.toNat ∧ c.toNat ≤ 102
      · omega
      · by_cases h3 : 65 ≤ c.toNat ∧ c.toNat ≤ 70
        · omega
        · simp [h1, h2, h3] at h
  refine ⟨?_, ?_, ?_, ?_, ?_, ?_⟩
  · unfold isspace
    have : c.toNat ≠ 32 := by omega
    have h9 : ¬ (9 ≤ c.toNat ∧ c.toNat ≤ 13) := by omega
    simp [this]
    omega
  · intro he
    rw [he] at hr
    revert hr
    decide
  · intro he
    rw [he] at hr
    revert hr
    decide
  · omega
  · intro he
    rw [he] at hr
    revert hr
    decide
  · intro he
    rw [he] at hr
    revert hr
    decide

/-- For an entry that is a hexadecimal number fitting an `unsigned long`,
`strtoul (data, NULL, 16)` returns its hexadecimal value. -/
theorem strtoul_16_hexadecimal_value (ULONG_MOD : Nat) (entry : String) (n : Nat)
    (hval : spec_hexadecimal_value entry = some n) (hfit : n < ULONG_MOD) :
    strtoul_16 ULONG_MOD (c_string entry) = n := by
  unfold spec_hexadecimal_value at hval
  -- the characters of the entry
  have key : ∀ (data digits : List Char),
      digits = (match data with
        | z :: x :: r => if z = '0' ∧ (x = 'x' ∨ x = 'X') then r else data
        | _ => data) →
      digits ≠ [] → (∀ c ∈ digits, (hex_value c).isSome = true) →
      strtoull_digits digits 0 = n →
      strtoul_16 ULONG_MOD (data.takeWhile (fun c => c.toNat ≠ 0)) = n := by
    intro data digits hdig hne hall hn
    have h0 : (hex_value '0').isSome = true := by decide
    have hfinish : ∀ (first : Char) (tail : List Char), data = first :: tail →
        (∀ c ∈ data, c.toNat ≠ 0) → isspace first = false → first ≠ '-' → first ≠ '+' →
        strtoul_16 ULONG_MOD (data.takeWhile (fun c => c.toNat ≠ 0)) = n := by
      intro first tail hdata hnul hsp hm hp
      have htw : data.takeWhile (fun c => c.toNat ≠ 0) = data := by
        rw [List.takeWhile_eq_self_iff]
        intro c hc
        simpa using hnul c hc
      rw [htw]
      subst hdata
      unfold strtoul_16
      simp only [List.dropWhile_cons, hsp, Bool.false_eq_true, if_false]
      simp only [hm, hp, or_self, if_false, decide_False]
      rw [← hdig, hn]
      simp [Nat.not_le.2 hfit]
    cases data with
    | nil => simp at hdig; exact absurd hdig hne
    | cons z t =>
      cases t with
      | nil =>
        simp only at hdig
        have hz := hex_char_facts z (hall z (by rw [hdig]; simp))
        exact hfinish z [] rfl (by
          intro c hc
          simp at hc
          rw [hc]
          exact hz.2.2.2.1) hz.1 hz.2.1 hz.2.2.1
      | cons x r =>
        by_cases hpre : z = '0' ∧ (x = 'x' ∨ x = 'X')
        · simp only [hpre, and_self, if_true] at hdig
          have hz := hex_char_facts z (by rw [hpre.1]; exact h0)
          refine hfinish z (x :: r) rfl ?_ hz.1 hz.2.1 hz.2.2.1
          intro c hc
          rcases List.mem_cons.1 hc with h1 | h1
          · rw [h1]; exact hz.2.2.2.1
          · rcases List.mem_cons.1 h1 with h2 | h2
            · rw [h2]
              rcases hpre.2 with hx | hx <;> rw [hx] <;> decide
            · exact (hex_char_facts c (hall c (by rw [hdig]; exact h2))).2.2.2.1
        · simp only [hpre, if_false] at hdig
          have hz := hex_char_facts z (hall z (by rw [hdig]; simp))
          refine hfinish z (x :: r) rfl ?_ hz.1 hz.2.1 hz.2.2.1
          intro c hc
          exact (hex_char_facts c (hall c (by rw [hdig]; exact hc))).2.2.2.1
  by_cases hcond : (match entry.data with
        | z :: x :: r => if z = '0' ∧ (x = 'x' ∨ x = 'X') then r else entry.data
        | _ => entry.data) ≠ []
      ∧ (match entry.data with
        | z :: x :: r => if z = '0' ∧ (x = 'x' ∨ x = 'X') then r else entry.data
        | _ => entry.data).all (fun c => (hex_value c).isSome) = true
  · dsimp only at hval
    rw [if_pos hcond] at hval
    exact key entry.data _ rfl hcond.1 (by simpa using hcond.2) (Option.some.inj hval)
  · dsimp only at hval
    rw [if_neg hcond] at hval
    exact absurd hval (by simp)

/-- C16 (counterexample).  With the single reserved tag `0x100008001`, whose
hexadecimal value is 4295000065, `mapistore_namedprops_check_id (Internal,
0x8001)` returns `MAPISTORE_ERR_EXIST`; with the single reserved tag `zzz`,
which has no hexadecimal value, `mapistore_namedprops_check_id (Internal, 0)`
returns `MAPISTORE_ERR_EXIST`.  In both cases the identifier is the
hexadecimal value of no entry. -/
theorem check_id_reserved_beyond_hexadecimal_value :
    spec_hexadecimal_value "0x100008001" = some 4295000065
    ∧ mapistore_namedprops_check_id sample_ldb_env
        (some (one_record_store (reserved_tags_record ["0x100008001"])))
        MAPISTORE_NAMEDPROPS_INTERNAL 0x8001
      = MAPISTORE_ERR_EXIST
    ∧ spec_hexadecimal_value "zzz" = none
    ∧ mapistore_namedprops_check_id sample_ldb_env
        (some (one_record_store (reserved_tags_record ["zzz"])))
        MAPISTORE_NAMEDPROPS_INTERNAL 0
      = MAPISTORE_ERR_EXIST := by
  refine ⟨?_, ?_, ?_, ?_⟩ <;> decide

/-- C16 (amended).  When the range record of the partition is found (`msg0`)
and the identifier is not below the `index` of the frontier check,
`mapistore_namedprops_check_id` returns `MAPISTORE_SUCCESS` if the record has
no `reserved_tags` attribute; if it has one, the call returns
`MAPISTORE_ERR_EXIST` when the identifier equals, for some entry of non-zero
length, the number `strtoul (data, NULL, 16)` returns for the entry, reduced
modulo `2^32` into the `uint32_t index`, and `MAPISTORE_SUCCESS` otherwise.
That number is the hexadecimal value of the entry whenever the entry is a
hexadecimal number below `2^32` (an `unsigned long` having at least 32
bits). -/
theorem check_id_reserved_tags (env : LdbEnv) (ldb_ctx : ldb_context)
    (ntype : MAPISTORE_NAMEDPROPS_TYPE) (identifier : Nat)
    (msg0 : ldb_message) (msgs : List ldb_message) (hmem : env.talloc_named_ok = true)
    (hrec : mapistore_namedprops_get_intext_record (some ldb_ctx) ntype = Except.ok (msg0, msgs))
    (hfront : ¬ identifier < int_to_uint32 (ldb_msg_find_attr_as_int env msg0 "mapped_index" 0)) :
    (ldb_msg_find_element msg0 "reserved_tags" = none →
      mapistore_namedprops_check_id env (some { mapistore_nprops_ctx := some ldb_ctx }) ntype
        identifier = MAPISTORE_SUCCESS)
    ∧ (∀ el, ldb_msg_find_element msg0 "reserved_tags" = some el →
        ((∃ v ∈ el.values, v.data.length ≠ 0
            ∧ strtoul_16 env.ULONG_MOD (c_string v) % UINT32_MOD = identifier) →
          mapistore_namedprops_check_id env (some { mapistore_nprops_ctx := some ldb_ctx }) ntype
            identifier = MAPISTORE_ERR_EXIST)
        ∧ ((¬ ∃ v ∈ el.values, v.data.length ≠ 0
            ∧ strtoul_16 env.ULONG_MOD (c_string v) % UINT32_MOD = identifier) →
          mapistore_namedprops_check_id env (some { mapistore_nprops_ctx := some ldb_ctx }) ntype
            identifier = MAPISTORE_SUCCESS))
    ∧ (∀ (v : String) (n : Nat), spec_hexadecimal_value v = some n → n < UINT32_MOD →
        UINT32_MOD ≤ env.ULONG_MOD →
        strtoul_16 env.ULONG_MOD (c_string v) % UINT32_MOD = n) := by
  refine ⟨?_, ?_, ?_⟩
  · intro hnone
    simp only [mapistore_namedprops_check_id, hmem, hrec, hnone]
    simp [hfront]
  · intro el hel
    constructor
    · intro hex
      have hl := (check_id_reserved_loop_iff env identifier el.values).2 hex
      simp only [mapistore_namedprops_check_id, hmem, hrec, hel]
      simp [hfront, hl]
    · intro hex
      have hl : check_id_reserved_loop env identifier el.values = false := by
        cases hb : check_id_reserved_loop env identifier el.values with
        | false => rfl
        | true => exact absurd ((check_id_reserved_loop_iff env identifier el.values).1 hb) hex
      simp only [mapistore_namedprops_check_id, hmem, hrec, hel]
      simp [hfront, hl]
  · intro v n hv hn hul
    rw [strtoul_16_hexadecimal_value env.ULONG_MOD v n hv (by omega)]
    exact Nat.mod_eq_of_lt hn

theorem check_id_reserved_tags_witness :
    mapistore_namedprops_check_id sample_ldb_env
        (some { mapistore_nprops_ctx := some (one_record_ldb scenario_record) })
        MAPISTORE_NAMEDPROPS_INTERNAL 0x8001 = MAPISTORE_ERR_EXIST
    ∧ mapistore_namedprops_check_id sample_ldb_env
        (some { mapistore_nprops_ctx := some (one_record_ldb scenario_record) })
        MAPISTORE_NAMEDPROPS_INTERNAL 0x8002 = MAPISTORE_SUCCESS
    ∧ strtoul_16 sample_ldb_env.ULONG_MOD (c_string "0x8001") % UINT32_MOD = 0x8001 :=
  ⟨((check_id_reserved_tags sample_ldb_env (one_record_ldb scenario_record)
      MAPISTORE_NAMEDPROPS_INTERNAL 0x8001 scenario_record [] rfl rfl (by decide)).2.1
      { name := "reserved_tags", values := ["0x8001"] } (by decide)).1
      ⟨"0x8001", by decide, by decide, by decide⟩,
   ((check_id_reserved_tags sample_ldb_env (one_record_ldb scenario_record)
      MAPISTORE_NAMEDPROPS_INTERNAL 0x8002 scenario_record [] rfl rfl (by decide)).2.1
      { name := "reserved_tags", values := ["0x8001"] } (by decide)).2
      (by decide),
   (check_id_reserved_tags sample_ldb_env (one_record_ldb scenario_record)
      MAPISTORE_NAMEDPROPS_INTERNAL 0x8001 scenario_record [] rfl rfl (by decide)).2.2
      "0x8001" 0x8001 (by decide) (by decide) (by decide)⟩

/-- C17 (counterexample).  With the stored `mapped_id` `0x10000`, which is
not zero, the lookup fails with `MAPISTORE_ERROR`: the value is stored in the
`uint16_t *propID`, where it is 0.  With the stored `mapped_id` `0x18001` the
lookup succeeds with the property id `0x8001`, not the stored value. -/
theorem get_mapped_id_truncates :
    ldb_msg_find_attr_as_uint sample_ldb_env
        (mapped_id_record "0x10000") "mapped_id" 0 = 65536
    ∧ mapistore_namedprops_get_mapped_id sample_ldb_env
        (some (one_record_ldb (mapped_id_record "0x10000")))
        (MAPINAMEID.MNID_ID "00062008-0000-0000-c000-000000000046" 0x8501) (some 7)
      = some (MAPISTORE_ERROR, some 0)
    ∧ mapistore_namedprops_get_mapped_id sample_ldb_env
        (some (one_record_ldb (mapped_id_record "0x18001")))
        (MAPINAMEID.MNID_ID "00062008-0000-0000-c000-000000000046" 0x8501) (some 7)
      = some (MAPISTORE_SUCCESS, some 0x8001) := by
  refine ⟨?_, ?_, ?_⟩ <;> decide

/-- C17 (amended).  Given a store handle and an output slot, for a name of
kind `MNID_ID` or `MNID_STRING` (`filter` the text built for it):
`mapistore_namedprops_get_mapped_id` fails with `MAPISTORE_ERROR` when the
search fails or matches no record; when a record matches, with `m` the stored
`mapped_id` of the first matching record reduced modulo `2^16` (the stored
value itself when it is below 65536), the call succeeds if and only if `m`
is not 0, and on success the returned property id is `m`, never 0. -/
theorem get_mapped_id_result (env : LdbEnv) (ldb_ctx : ldb_context) (nameid : MAPINAMEID)
    (filter : String) (slot : Nat) (hfilter : get_mapped_id_filter nameid = some filter) :
    ((ldb_ctx.search none filter = none ∨ ldb_ctx.search none filter = some []) →
      mapistore_namedprops_get_mapped_id env (some ldb_ctx) nameid (some slot)
        = some (MAPISTORE_ERROR, some 0))
    ∧ (∀ (msg0 : ldb_message) (msgs : List ldb_message),
        ldb_ctx.search none filter = some (msg0 :: msgs) →
        (ldb_msg_find_attr_as_uint env msg0 "mapped_id" 0 % UINT16_MOD ≠ 0 →
          mapistore_namedprops_get_mapped_id env (some ldb_ctx) nameid (some slot)
            = some (MAPISTORE_SUCCESS,
                some (ldb_msg_find_attr_as_uint env msg0 "mapped_id" 0 % UINT16_MOD)))
        ∧ (ldb_msg_find_attr_as_uint env msg0 "mapped_id" 0 % UINT16_MOD = 0 →
          mapistore_namedprops_get_mapped_id env (some ldb_ctx) nameid (some slot)
            = some (MAPISTORE_ERROR, some 0))
        ∧ (ldb_msg_find_attr_as_uint env msg0 "mapped_id" 0 < UINT16_MOD →
          ldb_msg_find_attr_as_uint env msg0 "mapped_id" 0 % UINT16_MOD
            = ldb_msg_find_attr_as_uint env msg0 "mapped_id" 0)) := by
  refine ⟨?_, ?_⟩
  · rintro (h | h) <;> simp [mapistore_namedprops_get_mapped_id, hfilter, h]
  · intro msg0 msgs hs
    refine ⟨?_, ?_, ?_⟩
    · intro hne
      simp [mapistore_namedprops_get_mapped_id, hfilter, hs, hne]
    · intro hz
      simp [mapistore_namedprops_get_mapped_id, hfilter, hs, hz]
    · intro hlt
      exact Nat.mod_eq_of_lt hlt

theorem get_mapped_id_result_witness :
    mapistore_namedprops_get_mapped_id sample_ldb_env
        (some (one_record_ldb (mapped_id_record "0x8001")))
        (MAPINAMEID.MNID_STRING "00062008-0000-0000-c000-000000000046" "Keywords") (some 7)
      = some (MAPISTORE_SUCCESS,
          some (ldb_msg_find_attr_as_uint sample_ldb_env
            (mapped_id_record "0x8001") "mapped_id" 0
            % UINT16_MOD)) :=
  ((get_mapped_id_result sample_ldb_env
      (one_record_ldb (mapped_id_record "0x8001"))
      (MAPINAMEID.MNID_STRING "00062008-0000-0000-c000-000000000046" "Keywords")
      "(&(objectClass=MNID_STRING)(oleguid=00062008-0000-0000-c000-000000000046)(cn=Keywords))"
      7 (by decide)).2
    (mapped_id_record "0x8001") [] rfl).1 (by decide)

/-! ## The receive folder: longest matching message class -/

/-- The expression `ldb_search` builds from a filter used as its format: a
text without `%` is kept, `%%` becomes `%`, and a `%` that starts a conversion
specification leaves the call undefined. -/
theorem ldb_search_format_cases :
    ldb_search_format "(PidTagMessageClass=IPM.Note*)".data
      = some "(PidTagMessageClass=IPM.Note*)".data
    ∧ ldb_search_format "(PidTagMessageClass=IPM%%*)".data
      = some "(PidTagMessageClass=IPM%*)".data
    ∧ ldb_search_format "CN=%s".data = none
    ∧ openchangedb_get_ReceiveFolder sample_ldb_env (sample_dispatcher_db ["IPM"]) "jdoe"
        "IPM%s" 0 none = none := by
  refine ⟨?_, ?_, ?_, ?_⟩ <;> decide

/-- The test `!strncasecmp (s, v, strlen (v))` holds exactly when `v` is a
case-insensitive prefix of `s`. -/
theorem strncasecmp_zero_iff (v s : List Char) :
    strncasecmp_zero s v v.length = true ↔ is_prefix_ignoring_case v s := by
  unfold is_prefix_ignoring_case
  induction v generalizing s with
  | nil => simp [strncasecmp_zero]
  | cons b v ih =>
    cases s with
    | nil => simp [strncasecmp_zero]
    | cons a s =>
      simp only [List.length_cons, strncasecmp_zero, Bool.and_eq_true, beq_iff_eq, List.map_cons,
        List.cons_prefix_cons, ih s]
      constructor
      · rintro ⟨h1, h2⟩
        exact ⟨h1.symm, h2⟩
      · rintro ⟨h1, h2⟩
        exact ⟨h1.symm, h2⟩

/-- The loop of step 3 changes nothing when no value that matches is longer
than `length`. -/
theorem get_ReceiveFolder_loop_keeps (M : List Char) (values : List String)
    (explicit : Option (List Char)) (n : Nat)
    (h : ∀ v ∈ values, is_prefix_ignoring_case (c_string v) M → (c_string v).length ≤ n) :
    get_ReceiveFolder_loop M values (explicit, n) = (explicit, n) := by
  induction values with
  | nil => rfl
  | cons v rest ih =>
    unfold get_ReceiveFolder_loop
    have hcond : ¬ (strncasecmp_zero M (c_string v) (c_string v).length = true
        ∧ (c_string v).length > n) := by
      rintro ⟨h1, h2⟩
      have := h v (List.mem_cons_self v rest) ((strncasecmp_zero_iff _ _).1 h1)
      omega
    rw [if_neg hcond]
    exact ih (fun w hw => h w (List.mem_cons_of_mem v hw))

/-- The loop of step 3 ends on the first of the longest values that match. -/
theorem get_ReceiveFolder_loop_longest (M : List Char) (pre post : List String) (w : String)
    (explicit : Option (List Char)) (n : Nat) (hall : M ≠ "All".data)
    (hw : is_prefix_ignoring_case (c_string w) M) (hn : n < (c_string w).length)
    (hpre : ∀ v ∈ pre, is_prefix_ignoring_case (c_string v) M →
      (c_string v).length < (c_string w).length)
    (hpost : ∀ v ∈ post, is_prefix_ignoring_case (c_string v) M →
      (c_string v).length ≤ (c_string w).length) :
    get_ReceiveFolder_loop M (pre ++ w :: post) (explicit, n)
      = (some (c_string w), (c_string w).length) := by
  induction pre generalizing explicit n with
  | nil =>
    simp only [List.nil_append]
    unfold get_ReceiveFolder_loop
    have hcond : strncasecmp_zero M (c_string w) (c_string w).length = true
        ∧ (c_string w).length > n := ⟨(strncasecmp_zero_iff _ _).2 hw, hn⟩
    rw [if_pos hcond]
    simp only [hall, if_false]
    exact get_ReceiveFolder_loop_keeps M post _ _ hpost
  | cons v rest ih =>
    simp only [List.cons_append]
    unfold get_ReceiveFolder_loop
    have hrest : ∀ u ∈ rest, is_prefix_ignoring_case (c_string u) M →
        (c_string u).length < (c_string w).length :=
      fun u hu => hpre u (List.mem_cons_of_mem v hu)
    by_cases hcond : strncasecmp_zero M (c_string v) (c_string v).length = true
        ∧ (c_string v).length > n
    · rw [if_pos hcond]
      simp only [hall, if_false]
      exact ih _ _ (hpre v (List.mem_cons_self v rest)
        ((strncasecmp_zero_iff _ _).1 hcond.1)) hrest
    · rw [if_neg hcond]
      exact ih _ _ hn hrest

/-- In a list with an element that has the property `P`, some such element is
the first of the longest ones: those before it are shorter, none after it
is longer. -/
theorem exists_first_longest (P : String → Prop) (len : String → Nat) (l : List String)
    (h : ∃ v ∈ l, P v) :
    ∃ (pre post : List String) (w : String), l = pre ++ w :: post ∧ P w
      ∧ (∀ v ∈ pre, P v → len v < len w) ∧ (∀ v ∈ post, P v → len v ≤ len w) := by
  induction l with
  | nil =>
    obtain ⟨v, hv, _⟩ := h
    simp at hv
  | cons x rest ih =>
    by_cases hrest : ∃ v ∈ rest, P v
    · obtain ⟨pre, post, w, hl, hw, hpre, hpost⟩ := ih hrest
      by_cases hx : P x ∧ len w ≤ len x
      · refine ⟨[], rest, x, rfl, hx.1, by simp, ?_⟩
        intro v hv hpv
        rw [hl] at hv
        rcases List.mem_append.1 hv with h1 | h1
        · have := hpre v h1 hpv
          omega
        · rcases List.mem_cons.1 h1 with h2 | h2
          · rw [h2]
            exact hx.2
          · have := hpost v h2 hpv
            omega
      · refine ⟨x :: pre, post, w, by rw [hl]; rfl, hw, ?_, hpost⟩
        intro v hv hpv
        rcases List.mem_cons.1 hv with h1 | h1
        · subst h1
          by_contra hcon
          exact hx ⟨hpv, by omega⟩
        · exact hpre v h1 hpv
    · obtain ⟨v, hv, hpv⟩ := h
      rcases List.mem_cons.1 hv with h1 | h1
      · subst h1
        refine ⟨[], rest, v, rfl, hpv, by simp, ?_⟩
        intro u hu hpu
        exact absurd ⟨u, hu, hpu⟩ hrest
      · exact absurd ⟨v, h1, hpv⟩ hrest

/-- C19.  Step 3 of `openchangedb_get_ReceiveFolder`, for a `MessageClass`
other than `All` and `*ExplicitMessageClass` `NULL` before the call, when the
two searches, on the expressions `ldb_search` builds from the two filters,
find the mailbox and a folder record whose `PidTagMessageClass` element has
the values `el.values`: if a value `w` is a non-empty
case-insensitive prefix of `MessageClass`, every matching value before it is
shorter and no matching value after it is longer, the call returns
`MAPI_E_SUCCESS` with `w`; such a value exists, and the call succeeds with
it, as soon as some non-empty value is a case-insensitive prefix of
`MessageClass`; if no non-empty value is a case-insensitive prefix of
`MessageClass`, the call returns `MAPI_E_NOT_FOUND`. -/
theorem get_ReceiveFolder_longest_match (env : LdbEnv) (ldb_ctx : ldb_context)
    (recipient MessageClass : String) (fid : Nat)
    (mailbox msg0 : ldb_message) (mailboxes msgs : List ldb_message) (dnstr : List Char)
    (el : ldb_message_element) (expression1 expression2 : List Char)
    (hall : MessageClass.data ≠ "All".data)
    (hf1 : ldb_search_format ("CN=" ++ recipient).data = some expression1)
    (hs1 : ldb_ctx.search none (String.mk expression1) = some (mailbox :: mailboxes))
    (hdn : ldb_msg_find_attr_as_string mailbox "distinguishedName" = some dnstr)
    (hf2 : ldb_search_format ("(PidTagMessageClass=" ++ MessageClass ++ "*)").data
      = some expression2)
    (hs2 : ldb_ctx.search (some (String.mk dnstr)) (String.mk expression2)
      = some (msg0 :: msgs))
    (hel : ldb_msg_find_element msg0 "PidTagMessageClass" = some el) :
    (∀ (pre post : List String) (w : String), el.values = pre ++ w :: post →
        c_string w ≠ [] → is_prefix_ignoring_case (c_string w) MessageClass.data →
        (∀ v ∈ pre, is_prefix_ignoring_case (c_string v) MessageClass.data →
          (c_string v).length < (c_string w).length) →
        (∀ v ∈ post, is_prefix_ignoring_case (c_string v) MessageClass.data →
          (c_string v).length ≤ (c_string w).length) →
        openchangedb_get_ReceiveFolder env ldb_ctx recipient MessageClass fid none
          = some (MAPI_E_SUCCESS, ldb_msg_find_attr_as_uint64 env msg0 "PidTagFolderId" 0,
              some (c_string w)))
    ∧ ((∃ v ∈ el.values, c_string v ≠ []
          ∧ is_prefix_ignoring_case (c_string v) MessageClass.data) →
        ∃ (pre post : List String) (w : String), el.values = pre ++ w :: post
          ∧ c_string w ≠ [] ∧ is_prefix_ignoring_case (c_string w) MessageClass.data
          ∧ (∀ v ∈ pre, is_prefix_ignoring_case (c_string v) MessageClass.data →
              (c_string v).length < (c_string w).length)
          ∧ (∀ v ∈ post, is_prefix_ignoring_case (c_string v) MessageClass.data →
              (c_string v).length ≤ (c_string w).length)
          ∧ openchangedb_get_ReceiveFolder env ldb_ctx recipient MessageClass fid none
              = some (MAPI_E_SUCCESS, ldb_msg_find_attr_as_uint64 env msg0 "PidTagFolderId" 0,
                  some (c_string w)))
    ∧ ((∀ v ∈ el.values, is_prefix_ignoring_case (c_string v) MessageClass.data →
          c_string v = []) →
        openchangedb_get_ReceiveFolder env ldb_ctx recipient MessageClass fid none
          = some (MAPI_E_NOT_FOUND, ldb_msg_find_attr_as_uint64 env msg0 "PidTagFolderId" 0,
              none)) := by
  have hmain : ∀ (pre post : List String) (w : String), el.values = pre ++ w :: post →
      c_string w ≠ [] → is_prefix_ignoring_case (c_string w) MessageClass.data →
      (∀ v ∈ pre, is_prefix_ignoring_case (c_string v) MessageClass.data →
        (c_string v).length < (c_string w).length) →
      (∀ v ∈ post, is_prefix_ignoring_case (c_string v) MessageClass.data →
        (c_string v).length ≤ (c_string w).length) →
      openchangedb_get_ReceiveFolder env ldb_ctx recipient MessageClass fid none
        = some (MAPI_E_SUCCESS, ldb_msg_find_attr_as_uint64 env msg0 "PidTagFolderId" 0,
            some (c_string w)) := by
    intro pre post w hvals hne hw hpre hpost
    have hpos : 0 < (c_string w).length := List.length_pos.2 hne
    have hloop := get_ReceiveFolder_loop_longest MessageClass.data pre post w none 0 hall hw hpos
      hpre hpost
    simp only [openchangedb_get_ReceiveFolder, hf1, hs1, hdn, hf2, hs2, hel, hvals, hloop]
  refine ⟨hmain, ?_, ?_⟩
  · intro hex
    obtain ⟨pre, post, w, hl, hw, hpre, hpost⟩ := exists_first_longest
      (fun v => c_string v ≠ [] ∧ is_prefix_ignoring_case (c_string v) MessageClass.data)
      (fun v => (c_string v).length) el.values hex
    have hpos : 0 < (c_string w).length := List.length_pos.2 hw.1
    have hpre2 : ∀ v ∈ pre, is_prefix_ignoring_case (c_string v) MessageClass.data →
        (c_string v).length < (c_string w).length := by
      intro v hv hp
      by_cases he : c_string v = []
      · rw [he]
        exact hpos
      · exact hpre v hv ⟨he, hp⟩
    have hpost2 : ∀ v ∈ post, is_prefix_ignoring_case (c_string v) MessageClass.data →
        (c_string v).length ≤ (c_string w).length := by
      intro v hv hp
      by_cases he : c_string v = []
      · rw [he]
        exact Nat.zero_le _
      · exact hpost v hv ⟨he, hp⟩
    exact ⟨pre, post, w, hl, hw.1, hw.2, hpre2, hpost2,
      hmain pre post w hl hw.1 hw.2 hpre2 hpost2⟩
  · intro hnone
    have hloop := get_ReceiveFolder_loop_keeps MessageClass.data el.values none 0
      (fun v hv hp => by simp [hnone v hv hp])
    simp only [openchangedb_get_ReceiveFolder, hf1, hs1, hdn, hf2, hs2, hel, hloop]

theorem get_ReceiveFolder_longest_match_witness :
    openchangedb_get_ReceiveFolder sample_ldb_env
        (sample_dispatcher_db ["IPM", "", "ipm.note", "IPM.NOTE", "IPM.Note.Foo", "ZZ"])
        "jdoe" "IPM.Note" 0 none
      = some (MAPI_E_SUCCESS,
          ldb_msg_find_attr_as_uint64 sample_ldb_env
            { elements := [{ name := "PidTagFolderId", values := ["0x10001"] },
                           { name := "PidTagMessageClass",
                             values := ["IPM", "", "ipm.note", "IPM.NOTE", "IPM.Note.Foo", "ZZ"] }] }
            "PidTagFolderId" 0,
          some (c_string "ipm.note")) :=
  (get_ReceiveFolder_longest_match sample_ldb_env
    (sample_dispatcher_db ["IPM", "", "ipm.note", "IPM.NOTE", "IPM.Note.Foo", "ZZ"])
    "jdoe" "IPM.Note" 0
    { elements := [{ name := "distinguishedName", values := ["CN=jdoe"] }] }
    { elements := [{ name := "PidTagFolderId", values := ["0x10001"] },
                   { name := "PidTagMessageClass",
                     values := ["IPM", "", "ipm.note", "IPM.NOTE", "IPM.Note.Foo", "ZZ"] }] }
    [] [] "CN=jdoe".data
    { name := "PidTagMessageClass",
      values := ["IPM", "", "ipm.note", "IPM.NOTE", "IPM.Note.Foo", "ZZ"] }
    "CN=jdoe".data "(PidTagMessageClass=IPM.Note*)".data
    (by decide) (by decide) rfl (by decide) (by decide) rfl (by decide)).1
    ["IPM", ""] ["IPM.NOTE", "IPM.Note.Foo", "ZZ"] "ipm.note" rfl (by decide)
    (by unfold is_prefix_ignoring_case; decide)
    (by
      intro v hv _
      simp only [List.mem_cons, List.mem_singleton, List.not_mem_nil, or_false] at hv
      rcases hv with h | h <;> subst h <;> decide)
    (by
      intro v hv hp
      simp only [List.mem_cons, List.mem_singleton, List.not_mem_nil, or_false] at hv
      rcases hv with h | h | h
      · subst h; decide
      · subst h
        exact absurd hp (by unfold is_prefix_ignoring_case; decide)
      · subst h
        exact absurd hp (by unfold is_prefix_ignoring_case; decide))

end Mapistore
